import Mathlib

/-!
# DriverApp: location sampling and dual-channel delivery

A shallow embedding of `src/services/LocationService.js`,
`src/services/SocketService.js`, `src/services/ApiService.js` and the
orchestration code of `src/screens/TrackingScreen.js`.

The static fields of the two service classes, the objects owned by the
libraries they call (geolocation watches, socket.io sockets, pending timers),
the React state of the tracking screen and the chronological list of
externally visible effects form one `World`.  Every JavaScript function is a
function `Env → World → Completion α`: `Env` carries what the environment
decides in that step (permission dialog, fetch outcome, clock, which library
call throws) and `Completion` says whether the function returned or threw,
with the world as it stands at that point.  The body of an `async` function
after its single `await` is run in the same step as the call, after the
synchronous code of the caller that follows the call; a `thrown`
completion of an `async` function is the rejection of its promise, which a
caller that does not await it never sees.

What is assumed of the libraries: `Geolocation.watchPosition` returns a fresh
identifier and the callbacks of a subscription run only while it is not
cleared; a socket object runs the listeners registered on it for whatever
event it fires, in registration order (the code never removes a listener);
one clock reading serves a whole step.
-/

namespace DriverApp

/-! ## JavaScript values -/

/-- A JavaScript number: the three non-finite values are explicit, a finite
value is the rational it denotes (no arithmetic is done on coordinates). -/
inductive JsNum
  | finite (q : ℚ)
  | nan
  | posInf
  | negInf
  deriving DecidableEq

/-- The JavaScript values that can sit in a field of a fix, of a response
body or of a route parameter. -/
inductive JsValue
  | undefined
  | null
  | bool (b : Bool)
  | num (n : JsNum)
  | str (s : String)
  deriving DecidableEq

namespace JsValue

/-- The `typeof` operator. -/
def typeof : JsValue → String
  | undefined => "undefined"
  | null => "object"
  | bool _ => "boolean"
  | num _ => "number"
  | str _ => "string"

/-- Truthiness, as used by `!x`, `x && y` and `x || y`. -/
def truthy : JsValue → Bool
  | undefined => false
  | null => false
  | bool b => b
  | num (JsNum.finite q) => decide (q ≠ 0)
  | num JsNum.nan => false
  | num JsNum.posInf => true
  | num JsNum.negInf => true
  | str s => decide (s ≠ "")

/-- The operator `a || b`. -/
def or (a b : JsValue) : JsValue := if a.truthy then a else b

/-- A value is a finite number (what `Number.isFinite` accepts). -/
def isFiniteNumber : JsValue → Bool
  | num (JsNum.finite _) => true
  | _ => false

/-- The number literal `0`. -/
def zero : JsValue := num (JsNum.finite 0)

end JsValue

/-- A thrown JavaScript exception. -/
inductive JsError
  | error (message : String)
  | typeError (message : String)
  deriving DecidableEq

/-! ## Data carried between the components -/

/-- `position.coords` of a raw fix delivered by the Geolocation module. -/
structure Coords where
  latitude : JsValue
  longitude : JsValue
  accuracy : JsValue := JsValue.undefined
  speed : JsValue := JsValue.undefined
  heading : JsValue := JsValue.undefined
  deriving DecidableEq

/-- A raw fix: the argument of the success callback of `watchPosition`. -/
structure Position where
  coords : Coords
  timestamp : JsValue := JsValue.undefined
  deriving DecidableEq

/-- The object handed to `onLocationUpdate`. -/
structure LocationData where
  latitude : JsValue
  longitude : JsValue
  accuracy : JsValue
  speed : JsValue
  bearing : JsValue
  timestamp : JsValue
  deriving DecidableEq

/-- The object `locationData` the position callback of `startTracking` builds
from a raw fix. -/
def Position.locationData (position : Position) : LocationData :=
  { latitude := position.coords.latitude
    longitude := position.coords.longitude
    accuracy := position.coords.accuracy
    speed := position.coords.speed
    bearing := position.coords.heading
    timestamp := position.timestamp }

/-- The argument of `JSON.stringify` in a request of `ApiService`. -/
inductive RequestBody
  | startTracking (driverId busId : JsValue)
  | stopTracking (driverId : JsValue)
  | updateLocation (driverId latitude longitude speed bearing : JsValue)
  deriving DecidableEq

/-- The object emitted with `driver-location-update`; `timestamp` is the
instant (epoch milliseconds) whose ISO-8601 string is sent. -/
structure PushLocation where
  bus_id : JsValue
  driver_id : JsValue
  latitude : JsValue
  longitude : JsValue
  speed : JsValue
  bearing : JsValue
  timestamp : Nat
  accuracy : JsValue
  deriving DecidableEq

/-- The data argument of `socket.emit`. -/
inductive Payload
  | room (driverId busId : JsValue)
  | location (p : PushLocation)
  deriving DecidableEq

/-- The parsed body of a response (`await response.json()`). -/
inductive JsonData
  | null
  | object (success message : JsValue)
  | primitive (v : JsValue)
  deriving DecidableEq

/-- What `fetch` followed by `response.json()` does in a step. -/
inductive FetchOutcome
  | rejected (e : JsError)
  | badJson (e : JsError)
  | json (data : JsonData)
  deriving DecidableEq

/-- The functions the tracking screen passes around as callbacks; the
identity of the session is captured by the closure. -/
inductive Callback
  | handleLocationUpdate (driverId busId : JsValue)
  | handleLocationError
  | other (id : Nat)
  deriving DecidableEq

/-- The argument of `LocationService.startTracking`. -/
structure TrackingOptions where
  onLocationUpdate : Option Callback
  onError : Option Callback
  interval : Option Nat := none
  deriving DecidableEq

/-- The third argument of `Geolocation.watchPosition`. -/
structure WatchConfig where
  enableHighAccuracy : Bool
  distanceFilter : Nat
  interval : Nat
  fastestInterval : ℚ
  forceRequestLocation : Bool
  forceLocationManager : Bool
  showLocationDialog : Bool
  useSignificantChanges : Bool
  deriving DecidableEq

/-- A subscription held by the Geolocation module: the two closures passed to
`watchPosition` capture `onLocationUpdate` and `onError` of that call. -/
structure Watch where
  id : Nat
  onLocationUpdate : Option Callback
  onError : Option Callback
  config : WatchConfig
  deriving DecidableEq

/-- The listeners registered on a socket. -/
inductive Handler
  | svcConnect
  | svcDisconnect
  | svcConnectError
  | svcReconnect
  | svcReconnectError
  | svcReconnectFailed
  | screenConnect (driverId busId : JsValue)
  | screenDisconnect
  deriving DecidableEq

/-- The second argument of `io(serverUrl, ...)`. -/
structure SocketOptions where
  transports : List String
  timeout : Nat
  reconnection : Bool
  reconnectionDelay : Nat
  reconnectionAttempts : Nat
  deriving DecidableEq

/-- A socket object created by `io`. -/
structure SocketObj where
  id : Nat
  url : String
  options : SocketOptions
  handlers : List (String × Handler)
  closed : Bool
  deriving DecidableEq

/-- What a callback that is not part of the repository was called with. -/
inductive CallbackArg
  | location (l : LocationData)
  | failure (e : JsError)
  deriving DecidableEq

/-- Externally visible effects, in the order they happen. -/
inductive Effect
  | watchPosition (id : Nat) (config : WatchConfig)
  | clearWatch (id : Nat)
  | setTimeout (ms : Nat)
  | called (fn : Nat) (arg : CallbackArg)
  | createSocket (sid : Nat) (url : String) (options : SocketOptions)
  | socketEmit (sid : Nat) (event : String) (payload : Payload)
  | socketDisconnect (sid : Nat)
  | fetch (method url : String) (body : RequestBody)
  | alert (title message : String) (buttons : List String)
  | popToTop
  deriving DecidableEq

/-- The React state of `TrackingScreen`. -/
structure ScreenState where
  isTracking : Bool := true
  currentLocation : Option LocationData := none
  locationCount : Nat := 0
  startTime : Nat := 0
  lastUpdateTime : Option Nat := none
  socketConnected : Bool := false
  deriving DecidableEq

/-- The whole state. -/
structure World where
  /-- `LocationService.watchId` -/
  watchId : Option Nat := none
  /-- `LocationService.currentOptions` -/
  currentOptions : Option TrackingOptions := none
  /-- Subscriptions of the Geolocation module that are not cleared -/
  watches : List Watch := []
  /-- The identifier the next `watchPosition` returns -/
  nextWatchId : Nat := 0
  /-- Restart timers scheduled by error callbacks and not yet fired -/
  restartTimers : Nat := 0
  /-- Pending `setTimeout(checkSocketConnection, 1000)` timers -/
  checkTimers : Nat := 0
  /-- `SocketService.socket` (the identifier of the socket object) -/
  socket : Option Nat := none
  /-- `SocketService.isConnected` -/
  isConnected : Bool := false
  /-- Every socket object created by `io` so far -/
  sockets : List SocketObj := []
  /-- React state of the tracking screen -/
  screen : ScreenState := {}
  /-- `isTracking` as captured by the closure of the mount effect -/
  effectIsTracking : Bool := true
  /-- The `AppState` listener of the mount effect is registered -/
  appStateSubscribed : Bool := false
  /-- Effects so far -/
  log : List Effect := []
  deriving DecidableEq

/-- The state at process start: the static initialisers of both services. -/
def World.init : World := {}

/-- Operating system reported by `Platform.OS`. -/
inductive Platform
  | android
  | ios
  deriving DecidableEq

/-- What `PermissionsAndroid.request` does. -/
inductive PermissionResult
  | granted
  | denied
  | neverAskAgain
  | threw
  deriving DecidableEq

/-- Library calls that throw in a step. -/
structure Faults where
  clearWatch : Bool := false
  emit : Bool := false
  socketDisconnect : Bool := false
  createSocket : Bool := false
  deriving DecidableEq

/-- What the environment decides during one step. -/
structure Env where
  platform : Platform := Platform.android
  permission : PermissionResult := PermissionResult.granted
  fetch : FetchOutcome := FetchOutcome.json (JsonData.object (JsValue.bool true) JsValue.undefined)
  now : Nat := 0
  faults : Faults := {}
  deriving DecidableEq

/-- How a function call ends: it returns a value or throws, and in both
cases the assignments made so far stay. -/
inductive Completion (α : Type)
  | normal (value : α) (world : World)
  | thrown (error : JsError) (world : World)

namespace Completion

/-- The world at the end of the call. -/
def world {α : Type} : Completion α → World
  | normal _ w => w
  | thrown _ w => w

/-- The call threw. -/
def threw {α : Type} : Completion α → Bool
  | normal _ _ => false
  | thrown _ _ => true

/-- The returned value, if the call returned. -/
def value? {α : Type} : Completion α → Option α
  | normal v _ => some v
  | thrown _ _ => none

/-- Sequencing of statements: the rest runs only if the first part returned. -/
def bind {α β : Type} (c : Completion α) (k : α → World → Completion β) : Completion β :=
  match c with
  | normal v w => k v w
  | thrown e w => thrown e w

/-- The statement `try body catch (error) handler`. -/
def tryCatch {α : Type} (c : Completion α) (handler : JsError → World → Completion α) :
    Completion α :=
  match c with
  | normal v w => normal v w
  | thrown e w => handler e w

end Completion

/-! ## SocketService.js -/

namespace SocketService

/-- The default value of the parameter `serverUrl` of `connect`. -/
def defaultUrl : String := "https://smartbus-backend-production.up.railway.app"

/-- The options `connect` passes to `io`. -/
def socketOptions : SocketOptions :=
  { transports := ["websocket", "polling"]
    timeout := 5000
    reconnection := true
    reconnectionDelay := 1000
    reconnectionAttempts := 10 }

/-- The six listeners `connect` registers on the socket it creates, in order. -/
def serviceHandlers : List (String × Handler) :=
  [("connect", Handler.svcConnect),
   ("disconnect", Handler.svcDisconnect),
   ("connect_error", Handler.svcConnectError),
   ("reconnect", Handler.svcReconnect),
   ("reconnect_error", Handler.svcReconnectError),
   ("reconnect_failed", Handler.svcReconnectFailed)]

/-- The test `this.socket && this.isConnected`. -/
def ready (w : World) : Bool := w.socket.isSome && w.isConnected

/-- `SocketService.connect(serverUrl)`: returns at once when a socket exists
and `isConnected` is set; otherwise creates a socket with `io` and registers
the six listeners, inside a `try` whose `catch` only logs. -/
def connect (env : Env) (serverUrl : String) (w : World) : Completion Unit :=
  if ready w then Completion.normal () w
  else if env.faults.createSocket then Completion.normal () w
  else
    let sid := w.sockets.length
    let sock : SocketObj :=
      { id := sid, url := serverUrl, options := socketOptions,
        handlers := serviceHandlers, closed := false }
    Completion.normal ()
      { w with
        socket := some sid
        sockets := w.sockets ++ [sock]
        log := w.log ++ [Effect.createSocket sid serverUrl socketOptions] }

/-- The library call `socket.disconnect()` on socket `sid`. -/
def socketDisconnect (env : Env) (sid : Nat) (w : World) : Completion Unit :=
  if env.faults.socketDisconnect then
    Completion.thrown (JsError.error "socket.disconnect failed") w
  else
    Completion.normal ()
      { w with
        sockets := w.sockets.map (fun s => if s.id = sid then { s with closed := true } else s)
        log := w.log ++ [Effect.socketDisconnect sid] }

/-- `SocketService.disconnect()`. -/
def disconnect (env : Env) (w : World) : Completion Unit :=
  match w.socket with
  | some sid =>
    (socketDisconnect env sid w).bind fun _ w1 =>
      Completion.normal () { w1 with socket := none, isConnected := false }
  | none => Completion.normal () w

/-- The library call `socket.emit(event, payload)` on socket `sid`. -/
def socketEmit (env : Env) (sid : Nat) (event : String) (payload : Payload) (w : World) :
    Completion Unit :=
  if env.faults.emit then Completion.thrown (JsError.error "socket.emit failed") w
  else Completion.normal () { w with log := w.log ++ [Effect.socketEmit sid event payload] }

/-- The common shape of `joinRoom`, `leaveRoom` and `emitLocationUpdate`:
emit when `this.socket && this.isConnected`, otherwise do nothing (the
`else` branches only warn on the console). -/
def emitIfReady (env : Env) (event : String) (payload : Payload) (w : World) :
    Completion Unit :=
  match w.socket with
  | some sid => if w.isConnected then socketEmit env sid event payload w else Completion.normal () w
  | none => Completion.normal () w

/-- `SocketService.joinRoom(driverId, busId)`. -/
def joinRoom (env : Env) (driverId busId : JsValue) (w : World) : Completion Unit :=
  emitIfReady env "join-driver-room" (Payload.room driverId busId) w

/-- `SocketService.leaveRoom(driverId, busId)`. -/
def leaveRoom (env : Env) (driverId busId : JsValue) (w : World) : Completion Unit :=
  emitIfReady env "leave-driver-room" (Payload.room driverId busId) w

/-- `SocketService.emitLocationUpdate(locationData)`. -/
def emitLocationUpdate (env : Env) (locationData : PushLocation) (w : World) : Completion Unit :=
  emitIfReady env "driver-location-update" (Payload.location locationData) w

/-- `SocketService.on(event, callback)` (the bare name is taken in Lean):
registers on the current socket object, if there is one. -/
def onEvent (event : String) (callback : Handler) (w : World) : Completion Unit :=
  match w.socket with
  | some sid =>
    Completion.normal ()
      { w with
        sockets := w.sockets.map
          (fun s => if s.id = sid then { s with handlers := s.handlers ++ [(event, callback)] } else s) }
  | none => Completion.normal () w

/-- The field `isConnected` of `SocketService.getConnectionStatus()`. -/
def getConnectionStatus (w : World) : Bool := w.isConnected

end SocketService

/-! ## ApiService.js -/

namespace ApiService

/-- The constant `BASE_URL`. -/
def BASE_URL : String := "https://smartbus-backend-production.up.railway.app/api"

/-- The body shared by the `POST` methods: issue the request, then return the
parsed body, or log and rethrow what `fetch` or `response.json()` threw. -/
def post (env : Env) (path : String) (body : RequestBody) (w : World) : Completion JsonData :=
  let w1 := { w with log := w.log ++ [Effect.fetch "POST" (BASE_URL ++ path) body] }
  match env.fetch with
  | FetchOutcome.rejected e => Completion.thrown e w1
  | FetchOutcome.badJson e => Completion.thrown e w1
  | FetchOutcome.json data => Completion.normal data w1

/-- `ApiService.updateLocation`. -/
def updateLocation (env : Env) (driverId latitude longitude speed bearing : JsValue)
    (w : World) : Completion JsonData :=
  post env "/drivers/update-location"
    (RequestBody.updateLocation driverId latitude longitude speed bearing) w

/-- `ApiService.stopTracking`. -/
def stopTracking (env : Env) (driverId : JsValue) (w : World) : Completion JsonData :=
  post env "/drivers/stop-tracking" (RequestBody.stopTracking driverId) w

end ApiService

/-- Reading `response.success`: a `TypeError` when `response` is `null`,
`undefined` when it is not an object. -/
def JsonData.getSuccess (d : JsonData) (w : World) : Completion JsValue :=
  match d with
  | JsonData.null => Completion.thrown (JsError.typeError "Cannot read property of null") w
  | JsonData.object success _ => Completion.normal success w
  | JsonData.primitive _ => Completion.normal JsValue.undefined w

/-! ## TrackingScreen.js: the two callbacks handed to the Sampler -/

namespace TrackingScreen

/-- The guard of `handleLocationUpdate`: `!location`, or a latitude or a
longitude whose `typeof` is not `number`. -/
def invalidLocation (location : Option LocationData) : Bool :=
  match location with
  | none => true
  | some l => l.latitude.typeof != "number" || l.longitude.typeof != "number"

/-- The body of the `try` block of `handleLocationUpdate` after the guard. -/
def processLocation (env : Env) (driverId busId : JsValue) (l : LocationData) (w : World) :
    Completion Unit :=
  let w1 : World :=
    { w with
      screen :=
        { w.screen with
          currentLocation := some l
          lastUpdateTime := some env.now
          locationCount := w.screen.locationCount + 1 } }
  (ApiService.updateLocation env driverId l.latitude l.longitude
      (l.speed.or JsValue.zero) (l.bearing.or JsValue.zero) w1).bind fun response w2 =>
    (response.getSuccess w2).bind fun _ w3 =>
      SocketService.emitLocationUpdate env
        { bus_id := busId
          driver_id := driverId
          latitude := l.latitude
          longitude := l.longitude
          speed := l.speed.or JsValue.zero
          bearing := l.bearing.or JsValue.zero
          timestamp := env.now
          accuracy := l.accuracy } w3

/-- `handleLocationUpdate(location)` of a screen whose route parameters are
`selectedDriver.driver_id = driverId` and `selectedBus.bus_id = busId`. -/
def handleLocationUpdate (env : Env) (driverId busId : JsValue)
    (location : Option LocationData) (w : World) : Completion Unit :=
  Completion.tryCatch
    (if invalidLocation location then Completion.normal () w
     else
      match location with
      | none => Completion.normal () w
      | some l => processLocation env driverId busId l w)
    (fun _ w1 => Completion.normal () w1)

/-- `handleLocationError(error)`: shows the alert with the two buttons. -/
def handleLocationError (w : World) : Completion Unit :=
  Completion.normal ()
    { w with
      log := w.log ++
        [Effect.alert "GPS Error" "Unable to get your location. Please check GPS settings."
          ["Retry", "Stop Tracking"]] }

end TrackingScreen

/-! ## LocationService.js -/

/-- Calling `cb(locationData)`, guarded by `cb &&`.  `handleLocationUpdate` is
`async`: what it throws after its `await` never reaches the caller. -/
def callOnLocationUpdate (env : Env) (cb : Option Callback) (l : LocationData) (w : World) :
    Completion Unit :=
  match cb with
  | none => Completion.normal () w
  | some (Callback.handleLocationUpdate driverId busId) =>
    Completion.normal () (TrackingScreen.handleLocationUpdate env driverId busId (some l) w).world
  | some Callback.handleLocationError => TrackingScreen.handleLocationError w
  | some (Callback.other fn) =>
    Completion.normal () { w with log := w.log ++ [Effect.called fn (CallbackArg.location l)] }

/-- Calling `cb(error)`, guarded by `cb &&`. -/
def callOnError (env : Env) (cb : Option Callback) (e : JsError) (w : World) : Completion Unit :=
  match cb with
  | none => Completion.normal () w
  | some (Callback.handleLocationUpdate driverId busId) =>
    Completion.normal () (TrackingScreen.handleLocationUpdate env driverId busId none w).world
  | some Callback.handleLocationError => TrackingScreen.handleLocationError w
  | some (Callback.other fn) =>
    Completion.normal () { w with log := w.log ++ [Effect.called fn (CallbackArg.failure e)] }

namespace LocationService

/-- `LocationService.requestLocationPermission()`. -/
def requestLocationPermission (env : Env) : Bool :=
  match env.platform with
  | Platform.android =>
    match env.permission with
    | PermissionResult.granted => true
    | PermissionResult.denied => false
    | PermissionResult.neverAskAgain => false
    | PermissionResult.threw => false
  | Platform.ios => true

/-- The library call `Geolocation.clearWatch(id)`. -/
def clearWatch (env : Env) (id : Nat) (w : World) : Completion Unit :=
  if env.faults.clearWatch then Completion.thrown (JsError.error "clearWatch failed") w
  else
    Completion.normal ()
      { w with
        watches := w.watches.filter (fun x => x.id != id)
        log := w.log ++ [Effect.clearWatch id] }

/-- `LocationService.stopTracking()`. -/
def stopTracking (env : Env) (w : World) : Completion Unit :=
  match w.watchId with
  | some id =>
    (clearWatch env id w).bind fun _ w1 =>
      Completion.normal () { w1 with watchId := none, currentOptions := none }
  | none => Completion.normal () w

/-- The options object `startTracking` passes to `watchPosition`. -/
def watchConfig (interval : Nat) : WatchConfig :=
  { enableHighAccuracy := true
    distanceFilter := 5
    interval := interval
    fastestInterval := max 5000 ((interval : ℚ) / 2)
    forceRequestLocation := true
    forceLocationManager := false
    showLocationDialog := true
    useSignificantChanges := false }

/-- The library call `Geolocation.watchPosition(success, error, config)`: a
new subscription under a fresh identifier, which is returned. -/
def watchPosition (onLocationUpdate onError : Option Callback) (config : WatchConfig)
    (w : World) : Completion Nat :=
  let id := w.nextWatchId
  Completion.normal id
    { w with
      watches := w.watches ++
        [{ id := id, onLocationUpdate := onLocationUpdate, onError := onError, config := config }]
      nextWatchId := id + 1
      log := w.log ++ [Effect.watchPosition id config] }

/-- `LocationService.startTracking(options)`, with the parameter default
`interval = 10000`. -/
def startTracking (env : Env) (options : TrackingOptions) (w : World) : Completion Bool :=
  let interval := options.interval.getD 10000
  if !requestLocationPermission env then
    (callOnError env options.onError (JsError.error "Location permission not granted") w).bind
      fun _ w1 => Completion.normal false w1
  else
    let w1 : World :=
      { w with
        currentOptions :=
          some { onLocationUpdate := options.onLocationUpdate, onError := options.onError,
                 interval := some interval } }
    (stopTracking env w1).bind fun _ w2 =>
      (watchPosition options.onLocationUpdate options.onError (watchConfig interval) w2).bind
        fun id w3 => Completion.normal true { w3 with watchId := some id }

/-- The success callback of the subscription `watch`, called with a raw fix. -/
def positionCallback (env : Env) (watch : Watch) (position : Position) (w : World) :
    Completion Unit :=
  callOnLocationUpdate env watch.onLocationUpdate position.locationData w

/-- The error callback of the subscription `watch`: report, then schedule the
restart with `setTimeout(..., 5000)`. -/
def errorCallback (env : Env) (watch : Watch) (e : JsError) (w : World) : Completion Unit :=
  (callOnError env watch.onError e w).bind fun _ w1 =>
    Completion.normal ()
      { w1 with
        restartTimers := w1.restartTimers + 1
        log := w1.log ++ [Effect.setTimeout 5000] }

/-- The function given to `setTimeout` by the error callback. -/
def restartCallback (env : Env) (w : World) : Completion Unit :=
  match w.currentOptions with
  | some options => Completion.normal () (startTracking env options w).world
  | none => Completion.normal () w

end LocationService

/-! ## The event loop seen from the Sampler -/

/-- A raw fix is delivered on subscription `id`; nothing happens when that
subscription has been cleared. -/
def sensorFix (env : Env) (id : Nat) (position : Position) (w : World) : World :=
  match w.watches.find? (fun x => x.id == id) with
  | some watch => (LocationService.positionCallback env watch position w).world
  | none => w

/-- The sensor reports a failure on subscription `id`. -/
def sensorFailure (env : Env) (id : Nat) (e : JsError) (w : World) : World :=
  match w.watches.find? (fun x => x.id == id) with
  | some watch => (LocationService.errorCallback env watch e w).world
  | none => w

/-- One pending restart timer fires; nothing happens when none is pending. -/
def fireRestartTimer (env : Env) (w : World) : World :=
  match w.restartTimers with
  | 0 => w
  | n + 1 => (LocationService.restartCallback env { w with restartTimers := n }).world

/-- What the environment decides in a step in which no library call throws. -/
structure Inputs where
  platform : Platform := Platform.android
  permission : PermissionResult := PermissionResult.granted
  fetch : FetchOutcome := FetchOutcome.json (JsonData.object (JsValue.bool true) JsValue.undefined)
  now : Nat := 0
  deriving DecidableEq

/-- The environment of a step with these inputs. -/
def Inputs.env (i : Inputs) : Env :=
  { platform := i.platform, permission := i.permission, fetch := i.fetch, now := i.now,
    faults := {} }

/-- The operations and callbacks that act on the Sampler. -/
inductive SamplerEvent
  | startTracking (i : Inputs) (options : TrackingOptions)
  | stopTracking
  | fix (i : Inputs) (id : Nat) (position : Position)
  | failure (i : Inputs) (id : Nat) (e : JsError)
  | restartTimer (i : Inputs)
  deriving DecidableEq

/-- One step of the Sampler. -/
def samplerStep (w : World) : SamplerEvent → World
  | SamplerEvent.startTracking i options => (LocationService.startTracking i.env options w).world
  | SamplerEvent.stopTracking => (LocationService.stopTracking ({} : Inputs).env w).world
  | SamplerEvent.fix i id position => sensorFix i.env id position w
  | SamplerEvent.failure i id e => sensorFailure i.env id e w
  | SamplerEvent.restartTimer i => fireRestartTimer i.env w

/-- A sequence of steps of the Sampler. -/
def runSampler (events : List SamplerEvent) (w : World) : World :=
  events.foldl samplerStep w

/-- The event is a `startTracking` whose permission request succeeds. -/
def SamplerEvent.startsWithPermission : SamplerEvent → Bool
  | SamplerEvent.startTracking i _ => LocationService.requestLocationPermission i.env
  | _ => false

/-! ## Events of the socket.io connection -/

/-- The body of a listener. -/
def runHandler (env : Env) (h : Handler) (w : World) : Completion Unit :=
  match h with
  | Handler.svcConnect => Completion.normal () { w with isConnected := true }
  | Handler.svcDisconnect => Completion.normal () { w with isConnected := false }
  | Handler.svcConnectError => Completion.normal () { w with isConnected := false }
  | Handler.svcReconnect => Completion.normal () { w with isConnected := true }
  | Handler.svcReconnectError => Completion.normal () w
  | Handler.svcReconnectFailed => Completion.normal () { w with isConnected := false }
  | Handler.screenConnect driverId busId =>
    SocketService.joinRoom env driverId busId
      { w with screen := { w.screen with socketConnected := true } }
  | Handler.screenDisconnect =>
    Completion.normal () { w with screen := { w.screen with socketConnected := false } }

/-- The listeners run in registration order; one that throws stops the rest. -/
def runHandlers (env : Env) : List Handler → World → Completion Unit
  | [], w => Completion.normal () w
  | h :: rest, w => (runHandler env h w).bind fun _ w1 => runHandlers env rest w1

/-- The socket object `sid` fires `event`: the listeners registered on that
object for that event run. -/
def deliver (env : Env) (sid : Nat) (event : String) (w : World) : World :=
  match w.sockets.find? (fun s => s.id == sid) with
  | some s =>
    (runHandlers env ((s.handlers.filter (fun p => p.1 == event)).map Prod.snd) w).world
  | none => w

/-- A sequence of events, each fired by some socket object. -/
def deliverAll (env : Env) (events : List (Nat × String)) (w : World) : World :=
  events.foldl (fun w1 p => deliver env p.1 p.2 w1) w

/-! ## TrackingScreen.js: the lifecycle of a session -/

namespace TrackingScreen

/-- `startLocationTracking()`; the promise of `startTracking` is dropped. -/
def startLocationTracking (env : Env) (driverId busId : JsValue) (w : World) : Completion Unit :=
  Completion.normal ()
    (LocationService.startTracking env
      { onLocationUpdate := some (Callback.handleLocationUpdate driverId busId)
        onError := some Callback.handleLocationError
        interval := some 10000 } w).world

/-- `checkSocketConnection()`. -/
def checkSocketConnection (w : World) : World :=
  { w with screen := { w.screen with socketConnected := SocketService.getConnectionStatus w } }

/-- The body of the mount effect (`useEffect(..., [])`), on the initial state
of the component.  `startLocationTracking()` suspends at the `await` of
`startTracking`, whose body runs once the synchronous code of the effect
(the timer and the `AppState` listener) is through. -/
def mount (env : Env) (driverId busId : JsValue) (w : World) : Completion Unit :=
  let w0 : World := { w with screen := { startTime := env.now }, effectIsTracking := true }
  (SocketService.connect env SocketService.defaultUrl w0).bind fun _ w1 =>
    (SocketService.onEvent "connect" (Handler.screenConnect driverId busId) w1).bind fun _ w2 =>
      (SocketService.onEvent "disconnect" Handler.screenDisconnect w2).bind fun _ w3 =>
        startLocationTracking env driverId busId
          { w3 with checkTimers := w3.checkTimers + 1, appStateSubscribed := true }

/-- `handleAppStateChange(nextAppState)`; `isTracking` is the value the
closure of the mount effect captured.  `startLocationTracking()` is called
first and suspends at the `await` of `startTracking`; the check of the
connection and `SocketService.connect()` run before the body of
`startTracking` does. -/
def handleAppStateChange (env : Env) (driverId busId : JsValue) (nextAppState : String)
    (w : World) : Completion Unit :=
  if nextAppState == "active" && w.effectIsTracking then
    (if !SocketService.getConnectionStatus w then
        SocketService.connect env SocketService.defaultUrl w
      else Completion.normal () w).bind fun _ w1 =>
      startLocationTracking env driverId busId w1
  else Completion.normal () w

/-- The function returned by the mount effect (the session cleanup). -/
def cleanup (env : Env) (driverId busId : JsValue) (w : World) : Completion Unit :=
  (LocationService.stopTracking env { w with appStateSubscribed := false }).bind fun _ w1 =>
    (SocketService.leaveRoom env driverId busId w1).bind fun _ w2 =>
      SocketService.disconnect env w2

end TrackingScreen

/-! ## Observations and invariants -/

/-- The fields owned by the Sampler and by the Geolocation module. -/
def World.sampler (w : World) : Option Nat × Option TrackingOptions × List Watch × Nat × Nat :=
  (w.watchId, w.currentOptions, w.watches, w.nextWatchId, w.restartTimers)

/-- The subscriptions that are not cleared are exactly the one `watchId`
names, and options are only kept while a subscription exists. -/
def SamplerInv (w : World) : Prop :=
  w.watches.map Watch.id = w.watchId.toList ∧ (w.watchId = none → w.currentOptions = none)

/-- The options `startLocationTracking` passes for the session of driver `D1`
on bus `B1`. -/
def sessionOptions : TrackingOptions :=
  { onLocationUpdate := some (Callback.handleLocationUpdate (JsValue.str "D1") (JsValue.str "B1"))
    onError := some Callback.handleLocationError
    interval := some 10000 }

/-- A start, a sensor failure (which schedules the restart timer), a stop and
a fresh start. -/
def stopThenStart : List SamplerEvent :=
  [SamplerEvent.startTracking {} sessionOptions,
   SamplerEvent.failure {} 0 (JsError.error "gps"),
   SamplerEvent.stopTracking,
   SamplerEvent.startTracking {} sessionOptions]

/-- One start, then two sensor failures, each followed by its timer. -/
def twoFailures : List SamplerEvent :=
  [SamplerEvent.startTracking {} sessionOptions,
   SamplerEvent.failure {} 0 (JsError.error "gps"),
   SamplerEvent.restartTimer {},
   SamplerEvent.failure {} 1 (JsError.error "gps"),
   SamplerEvent.restartTimer {}]

/-- The session of driver `D1` on bus `B1` right after the screen is mounted. -/
def mountedSession : World :=
  (TrackingScreen.mount ({} : Inputs).env (JsValue.str "D1") (JsValue.str "B1") World.init).world

/-- The same session once its socket has fired `connect`. -/
def connectedSession : World := deliver ({} : Inputs).env 0 "connect" mountedSession

/-- The fix of the end-to-end example of the specification. -/
def sampleFix : Position :=
  { coords :=
      { latitude := JsValue.num (JsNum.finite 12.9)
        longitude := JsValue.num (JsNum.finite 77.6)
        accuracy := JsValue.num (JsNum.finite 5)
        speed := JsValue.num (JsNum.finite 2.5) }
    timestamp := JsValue.num (JsNum.finite 1700000000000) }

/-- A fix whose latitude is `NaN`. -/
def nanFix : Position :=
  { coords :=
      { latitude := JsValue.num JsNum.nan
        longitude := JsValue.num (JsNum.finite 77.6) }
    timestamp := JsValue.num (JsNum.finite 1700000000000) }

/-- The durable request returned a body on which `success` can be read. -/
def FetchOutcome.responded : FetchOutcome → Bool
  | FetchOutcome.json (JsonData.object _ _) => true
  | FetchOutcome.json (JsonData.primitive _) => true
  | _ => false

/-- The request `handleLocationUpdate` issues for location `l`. -/
def updateRequest (driverId : JsValue) (l : LocationData) : Effect :=
  Effect.fetch "POST" (ApiService.BASE_URL ++ "/drivers/update-location")
    (RequestBody.updateLocation driverId l.latitude l.longitude
      (l.speed.or JsValue.zero) (l.bearing.or JsValue.zero))

/-- The message `handleLocationUpdate` pushes for location `l` at instant
`now` on socket `sid`. -/
def updatePush (sid : Nat) (driverId busId : JsValue) (l : LocationData) (now : Nat) : Effect :=
  Effect.socketEmit sid "driver-location-update"
    (Payload.location
      { bus_id := busId, driver_id := driverId, latitude := l.latitude,
        longitude := l.longitude, speed := l.speed.or JsValue.zero,
        bearing := l.bearing.or JsValue.zero, timestamp := now, accuracy := l.accuracy })

/-- The durable request `handleLocationUpdate` issues for `sampleFix` in the
session of `D1` on `B1`. -/
def sampleRequest : Effect :=
  Effect.fetch "POST" (ApiService.BASE_URL ++ "/drivers/update-location")
    (RequestBody.updateLocation (JsValue.str "D1") (JsValue.num (JsNum.finite 12.9))
      (JsValue.num (JsNum.finite 77.6)) (JsValue.num (JsNum.finite 2.5)) JsValue.zero)

/-- The push message for `sampleFix` processed at instant `now`. -/
def samplePush (now : Nat) : Effect :=
  Effect.socketEmit 0 "driver-location-update"
    (Payload.location
      { bus_id := JsValue.str "B1", driver_id := JsValue.str "D1",
        latitude := JsValue.num (JsNum.finite 12.9), longitude := JsValue.num (JsNum.finite 77.6),
        speed := JsValue.num (JsNum.finite 2.5), bearing := JsValue.zero, timestamp := now,
        accuracy := JsValue.num (JsNum.finite 5) })

/-- The operations of the push channel and the events of its sockets. -/
inductive ChannelEvent
  | connect (serverUrl : String)
  | disconnect
  | joinRoom (driverId busId : JsValue)
  | leaveRoom (driverId busId : JsValue)
  | emitLocationUpdate (p : PushLocation)
  | onConnect (driverId busId : JsValue)
  | onDisconnect
  | fire (sid : Nat) (event : String)
  deriving DecidableEq

/-- One step of the push channel; `onConnect` and `onDisconnect` are the two
registrations the tracking screen makes through `SocketService.on`. -/
def channelStep (w : World) : ChannelEvent → World
  | ChannelEvent.connect serverUrl => (SocketService.connect ({} : Inputs).env serverUrl w).world
  | ChannelEvent.disconnect => (SocketService.disconnect ({} : Inputs).env w).world
  | ChannelEvent.joinRoom d b => (SocketService.joinRoom ({} : Inputs).env d b w).world
  | ChannelEvent.leaveRoom d b => (SocketService.leaveRoom ({} : Inputs).env d b w).world
  | ChannelEvent.emitLocationUpdate p =>
    (SocketService.emitLocationUpdate ({} : Inputs).env p w).world
  | ChannelEvent.onConnect d b =>
    (SocketService.onEvent "connect" (Handler.screenConnect d b) w).world
  | ChannelEvent.onDisconnect => (SocketService.onEvent "disconnect" Handler.screenDisconnect w).world
  | ChannelEvent.fire sid event => deliver ({} : Inputs).env sid event w

/-- A sequence of steps of the push channel. -/
def runChannel (events : List ChannelEvent) (w : World) : World :=
  events.foldl channelStep w

/-- The two listeners that set `isConnected` are registered for `connect` and
`reconnect` only. -/
def HandlersWellFormed (w : World) : Prop :=
  ∀ s ∈ w.sockets, ∀ p ∈ s.handlers,
    (p.2 = Handler.svcConnect → p.1 = "connect") ∧ (p.2 = Handler.svcReconnect → p.1 = "reconnect")

/-- The mounted session after the app came back to the foreground before its
first socket connected. -/
def foregroundSession : World :=
  (TrackingScreen.handleAppStateChange ({} : Inputs).env (JsValue.str "D1") (JsValue.str "B1")
    "active" mountedSession).world

/-- An environment in which `Geolocation.clearWatch` throws. -/
def clearWatchFails : Env := { faults := { clearWatch := true } }

/-- An environment in which `socket.emit` throws. -/
def emitFails : Env := { faults := { emit := true } }

/-- A fix with valid coordinates whose speed is `NaN`. -/
def nanSpeedFix : Position :=
  { coords :=
      { latitude := JsValue.num (JsNum.finite 12.9)
        longitude := JsValue.num (JsNum.finite 77.6)
        speed := JsValue.num JsNum.nan } }

/-! ## TrackingScreen.js: stopping a session -/

namespace TrackingScreen

/-- The alert both failure branches of `confirmStopTracking` show, followed by
`navigation.popToTop()`. -/
def warnAndLeave (w : World) : World :=
  { w with
    log := w.log ++
      [Effect.alert "Warning" "Session ended locally, but server update failed." [],
       Effect.popToTop] }

/-- `confirmStopTracking()`. -/
def confirmStopTracking (env : Env) (driverId : JsValue) (w : World) : Completion Unit :=
  Completion.tryCatch
    ((LocationService.stopTracking env
        { w with screen := { w.screen with isTracking := false } }).bind fun _ w1 =>
      (ApiService.stopTracking env driverId w1).bind fun response w2 =>
        (response.getSuccess w2).bind fun success w3 =>
          if success.truthy then
            Completion.normal ()
              { w3 with
                log := w3.log ++
                  [Effect.alert "Session Ended" "GPS tracking has been stopped successfully."
                    ["OK"]] }
          else Completion.normal () (warnAndLeave w3))
    (fun _ w1 => Completion.normal () (warnAndLeave w1))

/-- The `onPress` of the `OK` button of the `Session Ended` alert. -/
def pressSessionEndedOk (w : World) : World :=
  { w with log := w.log ++ [Effect.popToTop] }

end TrackingScreen

/-- What reaches a mounted session of driver `driverId` on bus `busId` while
it samples: a location handed to `handleLocationUpdate`, or an event fired
by a socket object. -/
inductive DeliveryEvent
  | sample (env : Env) (location : Option LocationData)
  | socket (sid : Nat) (event : String)
  deriving DecidableEq

/-- One step of the delivery of samples. -/
def deliveryStep (driverId busId : JsValue) (w : World) : DeliveryEvent → World
  | DeliveryEvent.sample env location =>
    (TrackingScreen.handleLocationUpdate env driverId busId location w).world
  | DeliveryEvent.socket sid event => deliver ({} : Inputs).env sid event w

/-- A sequence of steps of the delivery of samples. -/
def runDelivery (driverId busId : JsValue) (events : List DeliveryEvent) (w : World) : World :=
  events.foldl (deliveryStep driverId busId) w

/-- The event is a sample that passes the guard of `handleLocationUpdate`. -/
def DeliveryEvent.passesValidation : DeliveryEvent → Bool
  | DeliveryEvent.sample _ location => !TrackingScreen.invalidLocation location
  | DeliveryEvent.socket _ _ => false

/-- The stop-session request was acknowledged: it returned an object whose
`success` field is truthy. -/
def FetchOutcome.acknowledged : FetchOutcome → Bool
  | FetchOutcome.json (JsonData.object success _) => success.truthy
  | _ => false

/-- The lifecycle events that carry a connection state. -/
def stateBearing (event : String) : Bool :=
  event == "connect" || event == "reconnect" || event == "disconnect" ||
    event == "connect_error" || event == "reconnect_failed"

/-- The connection status the most recent state-bearing event of a sequence
stands for: connected after `connect` or `reconnect`, not connected after
the others and when there is none. -/
def expectedStatus (events : List String) : Bool :=
  match (events.filter stateBearing).getLast? with
  | some event => event == "connect" || event == "reconnect"
  | none => false

/-- What a listener does to `isConnected`. -/
def Handler.flag (h : Handler) (b : Bool) : Bool :=
  match h with
  | Handler.svcConnect => true
  | Handler.svcReconnect => true
  | Handler.svcDisconnect => false
  | Handler.svcConnectError => false
  | Handler.svcReconnectFailed => false
  | _ => b

/-- The socket objects are numbered in the order `io` created them. -/
def SocketIds (w : World) : Prop :=
  w.sockets.map SocketObj.id = List.range w.sockets.length

/-- Socket object `sid` carries the six listeners of `connect()` and, after
them, only listeners of the tracking screen. -/
def Wired (w : World) (sid : Nat) : Prop :=
  ∃ s extra, w.sockets.find? (fun x => x.id == sid) = some s ∧
    s.handlers = SocketService.serviceHandlers ++ extra ∧
    ∀ p ∈ extra, (∃ d b, p.2 = Handler.screenConnect d b) ∨ p.2 = Handler.screenDisconnect

/-- The event is one of the two registrations of the tracking screen. -/
def ChannelEvent.isRegistration : ChannelEvent → Bool
  | ChannelEvent.onConnect _ _ => true
  | ChannelEvent.onDisconnect => true
  | _ => false

/-- Two `connect()` calls before the first socket has connected, a
`disconnect()` (which closes the second socket only), and then the first
socket, still open, fires `connect`. -/
def leakedSocketConnects : List ChannelEvent :=
  [ChannelEvent.connect SocketService.defaultUrl,
   ChannelEvent.connect SocketService.defaultUrl,
   ChannelEvent.disconnect,
   ChannelEvent.fire 0 "connect"]

/-! ## TrackingScreen.js: the elapsed time -/

/-- The method `padStart(targetLength, padString)` of a string, for a pad
string of one character. -/
def padStart (s : String) (targetLength : Nat) (pad : Char) : String :=
  String.mk (List.replicate (targetLength - s.length) pad) ++ s

namespace TrackingScreen

/-- `getElapsedTime()`: `startTime` is the state set at mount and `env.now`
the reading of `new Date()`, both in milliseconds; the difference is taken
for a clock that has not gone back since mount. -/
def getElapsedTime (env : Env) (w : World) : String :=
  let elapsed := (env.now - w.screen.startTime) / 1000
  let hours := elapsed / 3600
  let minutes := (elapsed % 3600) / 60
  let seconds := elapsed % 60
  padStart (toString hours) 2 '0' ++ ":" ++ padStart (toString minutes) 2 '0' ++ ":" ++
    padStart (toString seconds) 2 '0'

end TrackingScreen

/-- The session of the example once `confirmStopTracking()` has run, its
request acknowledged, and before the `OK` button of the alert is pressed. -/
def stoppedSession : World :=
  (TrackingScreen.confirmStopTracking ({} : Inputs).env (JsValue.str "D1") mountedSession).world

/-- Two `connect()` calls, the second made before the first socket has
connected. -/
def connectWhileConnecting : List ChannelEvent :=
  [ChannelEvent.connect SocketService.defaultUrl, ChannelEvent.connect SocketService.defaultUrl]

/-- The connection status after a sequence of events of a connection that was
opened while the flag was `before`: what the most recent state-bearing event
stands for, and `before` when there is none. -/
def statusFrom (before : Bool) (events : List String) : Bool :=
  match (events.filter stateBearing).getLast? with
  | some event => event == "connect" || event == "reconnect"
  | none => before

/-! # Properties -/

/-! ## The Sampler -/

/-- `handleLocationUpdate` never touches the state of the Sampler. -/
theorem handleLocationUpdate_sampler (env : Env) (d b : JsValue) (loc : Option LocationData)
    (w : World) :
    (TrackingScreen.handleLocationUpdate env d b loc w).world.sampler = w.sampler := by
  unfold TrackingScreen.handleLocationUpdate
  cases loc with
  | none => simp [TrackingScreen.invalidLocation, Completion.tryCatch, Completion.world]
  | some l =>
    by_cases hv : TrackingScreen.invalidLocation (some l) = true
    · simp [hv, Completion.tryCatch, Completion.world]
    · simp only [hv]
      simp only [TrackingScreen.processLocation, ApiService.updateLocation, ApiService.post,
        SocketService.emitLocationUpdate, SocketService.emitIfReady, SocketService.socketEmit,
        JsonData.getSuccess]
      cases env.fetch with
      | rejected e => simp [Completion.bind, Completion.tryCatch, Completion.world, World.sampler]
      | badJson e => simp [Completion.bind, Completion.tryCatch, Completion.world, World.sampler]
      | json data =>
        cases data <;> cases hs : w.socket <;> cases hc : w.isConnected <;>
          cases hf : env.faults.emit <;>
          simp [Completion.bind, Completion.tryCatch, Completion.world, World.sampler, hs, hc, hf]

/-- Calling the location callback returns normally. -/
theorem callOnLocationUpdate_normal (env : Env) (cb : Option Callback) (l : LocationData)
    (w : World) :
    callOnLocationUpdate env cb l w
      = Completion.normal () (callOnLocationUpdate env cb l w).world := by
  rcases cb with _ | cb
  · rfl
  · cases cb <;> rfl

/-- Calling the error callback returns normally. -/
theorem callOnError_normal (env : Env) (cb : Option Callback) (e : JsError) (w : World) :
    callOnError env cb e w = Completion.normal () (callOnError env cb e w).world := by
  rcases cb with _ | cb
  · rfl
  · cases cb <;> rfl

/-- The location callback leaves the state of the Sampler as it is. -/
theorem callOnLocationUpdate_sampler (env : Env) (cb : Option Callback) (l : LocationData)
    (w : World) : (callOnLocationUpdate env cb l w).world.sampler = w.sampler := by
  rcases cb with _ | cb
  · rfl
  · cases cb with
    | handleLocationUpdate d b =>
      simpa [callOnLocationUpdate, Completion.world] using
        handleLocationUpdate_sampler env d b (some l) w
    | handleLocationError => rfl
    | other fn => rfl

/-- The error callback leaves the state of the Sampler as it is. -/
theorem callOnError_sampler (env : Env) (cb : Option Callback) (e : JsError) (w : World) :
    (callOnError env cb e w).world.sampler = w.sampler := by
  rcases cb with _ | cb
  · rfl
  · cases cb with
    | handleLocationUpdate d b =>
      simpa [callOnError, Completion.world] using handleLocationUpdate_sampler env d b none w
    | handleLocationError => rfl
    | other fn => rfl

/-- Equal Sampler projections, field by field. -/
theorem sampler_fields {w w1 : World} (h : w1.sampler = w.sampler) :
    w1.watchId = w.watchId ∧ w1.currentOptions = w.currentOptions ∧ w1.watches = w.watches ∧
      w1.nextWatchId = w.nextWatchId ∧ w1.restartTimers = w.restartTimers := by
  simpa [World.sampler, Prod.ext_iff] using h

/-- The invariant only reads the fields of the Sampler. -/
theorem SamplerInv_of_sampler {w w1 : World} (h : w1.sampler = w.sampler) (hw : SamplerInv w) :
    SamplerInv w1 := by
  obtain ⟨h1, h2, h3, -, -⟩ := sampler_fields h
  simpa [SamplerInv, h1, h2, h3] using hw

/-- What `stopTracking()` does when `clearWatch` does not throw. -/
theorem stopTracking_world (i : Inputs) (w : World) :
    LocationService.stopTracking i.env w =
      Completion.normal ()
        (match w.watchId with
         | some id =>
           { w with
             watches := w.watches.filter (fun x => x.id != id)
             log := w.log ++ [Effect.clearWatch id]
             watchId := none
             currentOptions := none }
         | none => w) := by
  cases h : w.watchId <;>
    simp [LocationService.stopTracking, LocationService.clearWatch, Inputs.env, Completion.bind, h]

/-- Clearing the only subscription leaves none. -/
theorem filter_ne_of_ids {ws : List Watch} {id : Nat} (h : ws.map Watch.id = [id]) :
    ws.filter (fun x => x.id != id) = [] := by
  rcases ws with _ | ⟨x, _ | ⟨y, rest⟩⟩
  · simp at h
  · simp at h
    simp [h]
  · simp at h

/-- `stopTracking()` keeps the invariant and ends Idle. -/
theorem SamplerInv_stopTracking (i : Inputs) (w : World) (hw : SamplerInv w) :
    SamplerInv (LocationService.stopTracking i.env w).world ∧
      (LocationService.stopTracking i.env w).world.watchId = none ∧
      (LocationService.stopTracking i.env w).world.currentOptions = none := by
  rw [stopTracking_world]
  obtain ⟨h1, h2⟩ := hw
  cases h : w.watchId with
  | none => simp [Completion.world, SamplerInv, h, h1, h2]
  | some id =>
    rw [h] at h1
    simp [Completion.world, SamplerInv, filter_ne_of_ids h1]


/-- `startTracking` without permission: the error callback, then `false`. -/
theorem startTracking_denied (env : Env) (options : TrackingOptions) (w : World)
    (h : LocationService.requestLocationPermission env = false) :
    LocationService.startTracking env options w =
      Completion.normal false
        (callOnError env options.onError (JsError.error "Location permission not granted")
          w).world := by
  unfold LocationService.startTracking
  rw [callOnError_normal]
  simp [h, Completion.bind, Completion.world]

/-- `startTracking` with permission, when `clearWatch` does not throw. -/
theorem startTracking_granted (i : Inputs) (options : TrackingOptions) (w : World)
    (h : LocationService.requestLocationPermission i.env = true) :
    LocationService.startTracking i.env options w =
      Completion.normal true
        { w with
          watchId := some w.nextWatchId
          currentOptions :=
            match w.watchId with
            | some _ => none
            | none =>
              some { onLocationUpdate := options.onLocationUpdate, onError := options.onError,
                     interval := some (options.interval.getD 10000) }
          watches :=
            (match w.watchId with
             | some id => w.watches.filter (fun x => x.id != id)
             | none => w.watches) ++
              [{ id := w.nextWatchId, onLocationUpdate := options.onLocationUpdate,
                 onError := options.onError,
                 config := LocationService.watchConfig (options.interval.getD 10000) }]
          nextWatchId := w.nextWatchId + 1
          log :=
            w.log ++
              (match w.watchId with
               | some id => [Effect.clearWatch id]
               | none => []) ++
              [Effect.watchPosition w.nextWatchId
                (LocationService.watchConfig (options.interval.getD 10000))] } := by
  simp only [LocationService.startTracking, stopTracking_world]
  cases hw : w.watchId <;>
    simp [h, Completion.bind, LocationService.watchPosition, hw]

/-- `startTracking` keeps the invariant. -/
theorem SamplerInv_startTracking (i : Inputs) (options : TrackingOptions) (w : World)
    (hw : SamplerInv w) : SamplerInv (LocationService.startTracking i.env options w).world := by
  by_cases h : LocationService.requestLocationPermission i.env = true
  · rw [startTracking_granted i options w h]
    obtain ⟨h1, h2⟩ := hw
    cases hid : w.watchId with
    | none =>
      have : w.watches = [] := by simpa [hid] using h1
      simp [Completion.world, SamplerInv, hid, this]
    | some id =>
      rw [hid] at h1
      simp [Completion.world, SamplerInv, hid, filter_ne_of_ids h1]
  · rw [startTracking_denied i.env options w (by simpa using h)]
    exact SamplerInv_of_sampler (callOnError_sampler _ _ _ _) hw

/-- A fix keeps the invariant. -/
theorem SamplerInv_sensorFix (env : Env) (id : Nat) (p : Position) (w : World)
    (hw : SamplerInv w) : SamplerInv (sensorFix env id p w) := by
  unfold sensorFix
  split
  · exact SamplerInv_of_sampler (callOnLocationUpdate_sampler _ _ _ _) hw
  · exact hw

/-- The error callback reports, then schedules one timer. -/
theorem errorCallback_world (env : Env) (watch : Watch) (e : JsError) (w : World) :
    (LocationService.errorCallback env watch e w).world =
      { (callOnError env watch.onError e w).world with
        restartTimers := (callOnError env watch.onError e w).world.restartTimers + 1
        log := (callOnError env watch.onError e w).world.log ++ [Effect.setTimeout 5000] } := by
  unfold LocationService.errorCallback
  rw [callOnError_normal]
  simp [Completion.bind, Completion.world]

/-- A sensor failure keeps the invariant. -/
theorem SamplerInv_sensorFailure (env : Env) (id : Nat) (e : JsError) (w : World)
    (hw : SamplerInv w) : SamplerInv (sensorFailure env id e w) := by
  unfold sensorFailure
  cases w.watches.find? (fun x => x.id == id) with
  | none => exact hw
  | some watch =>
    simp only [errorCallback_world]
    obtain ⟨h1, h2, h3, -, -⟩ := sampler_fields (callOnError_sampler env watch.onError e w)
    simpa [SamplerInv, h1, h2, h3] using hw

/-- A timer firing keeps the invariant. -/
theorem SamplerInv_fireRestartTimer (i : Inputs) (w : World) (hw : SamplerInv w) :
    SamplerInv (fireRestartTimer i.env w) := by
  unfold fireRestartTimer
  split
  · exact hw
  · rename_i n hn
    have hw1 : SamplerInv { w with restartTimers := n } := hw
    unfold LocationService.restartCallback
    cases hc : w.currentOptions with
    | none => simpa [hc, Completion.world] using hw1
    | some options =>
      simpa [hc, Completion.world] using SamplerInv_startTracking i options _ hw1

/-- The invariant holds at process start. -/
theorem SamplerInv_init : SamplerInv World.init := by
  simp [SamplerInv, World.init]

/-- Every step of the Sampler keeps the invariant. -/
theorem SamplerInv_step (w : World) (e : SamplerEvent) (hw : SamplerInv w) :
    SamplerInv (samplerStep w e) := by
  cases e with
  | startTracking i options => exact SamplerInv_startTracking i options w hw
  | stopTracking => exact (SamplerInv_stopTracking _ w hw).1
  | fix i id position => exact SamplerInv_sensorFix _ id position w hw
  | failure i id e => exact SamplerInv_sensorFailure _ id e w hw
  | restartTimer i => exact SamplerInv_fireRestartTimer i w hw

/-- Every run of the Sampler keeps the invariant. -/
theorem SamplerInv_run (events : List SamplerEvent) (w : World) (hw : SamplerInv w) :
    SamplerInv (runSampler events w) := by
  induction events generalizing w with
  | nil => exact hw
  | cons e rest ih => exact ih _ (SamplerInv_step w e hw)


/-- Only a `startTracking` with permission takes the Sampler out of Idle. -/
theorem idle_step (w : World) (e : SamplerEvent) (he : e.startsWithPermission = false)
    (hw : w.watchId = none ∧ w.currentOptions = none) :
    (samplerStep w e).watchId = none ∧ (samplerStep w e).currentOptions = none := by
  obtain ⟨h1, h2⟩ := hw
  cases e with
  | startTracking i options =>
    have hp : LocationService.requestLocationPermission i.env = false := he
    simp only [samplerStep, startTracking_denied i.env options w hp, Completion.world]
    obtain ⟨k1, k2, -, -, -⟩ := sampler_fields (callOnError_sampler i.env options.onError
      (JsError.error "Location permission not granted") w)
    exact ⟨k1.trans h1, k2.trans h2⟩
  | stopTracking =>
    simp [samplerStep, stopTracking_world, Completion.world, h1, h2]
  | fix i id position =>
    simp only [samplerStep, sensorFix]
    cases w.watches.find? (fun x => x.id == id) with
    | none => exact ⟨h1, h2⟩
    | some watch =>
      obtain ⟨k1, k2, -, -, -⟩ := sampler_fields
        (callOnLocationUpdate_sampler i.env watch.onLocationUpdate position.locationData w)
      exact ⟨k1.trans h1, k2.trans h2⟩
  | failure i id e =>
    simp only [samplerStep, sensorFailure]
    cases w.watches.find? (fun x => x.id == id) with
    | none => exact ⟨h1, h2⟩
    | some watch =>
      simp only [errorCallback_world]
      obtain ⟨k1, k2, -, -, -⟩ := sampler_fields (callOnError_sampler i.env watch.onError e w)
      exact ⟨k1.trans h1, k2.trans h2⟩
  | restartTimer i =>
    simp only [samplerStep, fireRestartTimer]
    cases w.restartTimers with
    | zero => exact ⟨h1, h2⟩
    | succ n => simp [LocationService.restartCallback, h2, h1, Completion.world]

/-- A run without a `startTracking` with permission stays Idle. -/
theorem idle_run (events : List SamplerEvent) (w : World)
    (he : ∀ e ∈ events, e.startsWithPermission = false)
    (hw : w.watchId = none ∧ w.currentOptions = none) :
    (runSampler events w).watchId = none ∧ (runSampler events w).currentOptions = none := by
  induction events generalizing w with
  | nil => exact hw
  | cons e rest ih =>
    exact ih _ (fun x hx => he x (List.mem_cons_of_mem _ hx))
      (idle_step w e (he e (List.mem_cons_self _ _)) hw)

/-- With no options kept, a timer firing only uses up the timer. -/
theorem fireRestartTimer_idle (env : Env) (w : World) (h : w.currentOptions = none) :
    fireRestartTimer env w = { w with restartTimers := w.restartTimers - 1 } := by
  unfold fireRestartTimer
  cases hn : w.restartTimers with
  | zero =>
    simp only [Nat.zero_sub]
    rw [← hn]
  | succ n => simp [LocationService.restartCallback, h, Completion.world]

/-- C1, as amended.  In every state reached from process start by any
sequence of Sampler operations and sensor callbacks (`pre`, which may hold
the failure that scheduled the timer), once `stopTracking()` has been called
and no `startTracking` whose permission request succeeds has run since
(`mid` may hold anything else, other timer firings included), the firing of
a restart timer changes nothing but the count of pending timers: no
subscription is created, no callback is invoked, no effect is produced, and
`watchId` and `currentOptions` stay as they are. -/
theorem restart_timer_noop_after_stop (pre mid : List SamplerEvent) (i : Inputs)
    (hmid : ∀ e ∈ mid, e.startsWithPermission = false) :
    fireRestartTimer i.env
        (runSampler mid (samplerStep (runSampler pre World.init) SamplerEvent.stopTracking)) =
      { runSampler mid (samplerStep (runSampler pre World.init) SamplerEvent.stopTracking) with
        restartTimers :=
          (runSampler mid
            (samplerStep (runSampler pre World.init) SamplerEvent.stopTracking)).restartTimers - 1 } := by
  apply fireRestartTimer_idle
  have hstop := SamplerInv_stopTracking ({} : Inputs) _ (SamplerInv_run pre World.init SamplerInv_init)
  exact (idle_run mid _ hmid ⟨hstop.2.1, hstop.2.2⟩).2

/-- C1, witness: a start, two sensor failures (two timers pending), a stop,
the first timer firing; the second firing is then a no-op. -/
theorem restart_timer_noop_after_stop_witness :
    fireRestartTimer ({} : Inputs).env
        (runSampler [SamplerEvent.restartTimer {}]
          (samplerStep
            (runSampler
              [SamplerEvent.startTracking {} sessionOptions,
               SamplerEvent.failure {} 0 (JsError.error "gps"),
               SamplerEvent.failure {} 0 (JsError.error "gps")] World.init)
            SamplerEvent.stopTracking)) =
      { runSampler [SamplerEvent.restartTimer {}]
          (samplerStep
            (runSampler
              [SamplerEvent.startTracking {} sessionOptions,
               SamplerEvent.failure {} 0 (JsError.error "gps"),
               SamplerEvent.failure {} 0 (JsError.error "gps")] World.init)
            SamplerEvent.stopTracking) with
        restartTimers :=
          (runSampler [SamplerEvent.restartTimer {}]
            (samplerStep
              (runSampler
                [SamplerEvent.startTracking {} sessionOptions,
                 SamplerEvent.failure {} 0 (JsError.error "gps"),
                 SamplerEvent.failure {} 0 (JsError.error "gps")] World.init)
              SamplerEvent.stopTracking)).restartTimers - 1 } :=
  restart_timer_noop_after_stop _ [SamplerEvent.restartTimer {}] {} (by decide)

/-- C1, counterexample.  After a start, a sensor failure (one timer pending),
a `stopTracking()` and a fresh `startTracking`, the pending timer finds
`currentOptions` set by the fresh start: its firing calls `startTracking`,
which clears subscription 1, creates subscription 2 and leaves
`currentOptions` null.  A stop between failure and firing does not make the
firing a no-op. -/
theorem restart_timer_fires_after_stop_and_start :
    SamplerEvent.stopTracking ∈ stopThenStart.drop 2 ∧
    (runSampler (stopThenStart.take 2) World.init).restartTimers = 1 ∧
    (runSampler stopThenStart World.init).restartTimers = 1 ∧
    (runSampler stopThenStart World.init).watchId = some 1 ∧
    (runSampler stopThenStart World.init).currentOptions = some sessionOptions ∧
    (fireRestartTimer ({} : Inputs).env (runSampler stopThenStart World.init)).watchId = some 2 ∧
    (fireRestartTimer ({} : Inputs).env (runSampler stopThenStart World.init)).currentOptions = none ∧
    (fireRestartTimer ({} : Inputs).env (runSampler stopThenStart World.init)).log =
      (runSampler stopThenStart World.init).log ++
        [Effect.clearWatch 1, Effect.watchPosition 2 (LocationService.watchConfig 10000)] := by
  refine ⟨by decide, by decide, by decide, by decide, by decide, by decide, by decide, ?_⟩
  rfl

/-- C5.  In every state reachable from process start by any sequence of
`startTracking` (permission granted or not), `stopTracking`, restart-timer
firings and sensor callbacks, the subscriptions of the Geolocation module
that are not cleared are exactly the one named by `watchId` (none when it is
null); and a `startTracking` that runs while a subscription `old` exists
clears `old` before it creates the new one. -/
theorem single_subscription (events : List SamplerEvent) :
    (runSampler events World.init).watches.map Watch.id
        = (runSampler events World.init).watchId.toList ∧
      ∀ (i : Inputs) (options : TrackingOptions) (old : Nat),
        (runSampler events World.init).watchId = some old →
        LocationService.requestLocationPermission i.env = true →
        (LocationService.startTracking i.env options (runSampler events World.init)).world.log =
          (runSampler events World.init).log ++
            [Effect.clearWatch old,
             Effect.watchPosition (runSampler events World.init).nextWatchId
               (LocationService.watchConfig (options.interval.getD 10000))] := by
  refine ⟨(SamplerInv_run events World.init SamplerInv_init).1, ?_⟩
  intro i options old hold hp
  rw [startTracking_granted i options _ hp]
  simp [Completion.world, hold]

/-! ## Delivery, the push channel and the session -/

/-- C2, the code at the failing input `n = 2`.  After one start and a first
failure, the first timer firing restarts (subscription 0 cleared,
subscription 1 created) but leaves `currentOptions` null, because
`startTracking` assigns it before calling `stopTracking()`, which resets it
whenever a subscription exists.  After the second failure a timer is
pending, and its firing changes nothing but the count of pending timers: no
`startTracking` call, no new subscription. -/
theorem second_failure_not_restarted :
    (runSampler (twoFailures.take 3) World.init).watchId = some 1 ∧
    (runSampler (twoFailures.take 3) World.init).log =
      (runSampler (twoFailures.take 2) World.init).log ++
        [Effect.clearWatch 0, Effect.watchPosition 1 (LocationService.watchConfig 10000)] ∧
    (runSampler (twoFailures.take 3) World.init).currentOptions = none ∧
    (runSampler (twoFailures.take 4) World.init).restartTimers = 1 ∧
    runSampler twoFailures World.init =
      { runSampler (twoFailures.take 4) World.init with restartTimers := 0 } := by
  refine ⟨by decide, by rfl, by decide, by decide, by rfl⟩

/-- C3, the code at the failing input.  A fix whose latitude is `NaN` (not a
finite number, but of type `number`) passes the guard of
`handleLocationUpdate`: one `updateLocation` request and one
`driver-location-update` emission carry it, the sample counter goes up by
one and it becomes the current location. -/
theorem nan_latitude_is_delivered :
    (nanFix.coords.latitude.isFiniteNumber = false) ∧
    (sensorFix ({ now := 5 } : Inputs).env 0 nanFix connectedSession).log =
      connectedSession.log ++
        [Effect.fetch "POST" (ApiService.BASE_URL ++ "/drivers/update-location")
           (RequestBody.updateLocation (JsValue.str "D1") (JsValue.num JsNum.nan)
             (JsValue.num (JsNum.finite 77.6)) JsValue.zero JsValue.zero),
         Effect.socketEmit 0 "driver-location-update"
           (Payload.location
             { bus_id := JsValue.str "B1", driver_id := JsValue.str "D1",
               latitude := JsValue.num JsNum.nan, longitude := JsValue.num (JsNum.finite 77.6),
               speed := JsValue.zero, bearing := JsValue.zero, timestamp := 5,
               accuracy := JsValue.undefined })] ∧
    (sensorFix ({ now := 5 } : Inputs).env 0 nanFix connectedSession).screen.locationCount =
      connectedSession.screen.locationCount + 1 ∧
    (sensorFix ({ now := 5 } : Inputs).env 0 nanFix connectedSession).screen.currentLocation =
      some { latitude := JsValue.num JsNum.nan, longitude := JsValue.num (JsNum.finite 77.6),
             accuracy := JsValue.undefined, speed := JsValue.undefined,
             bearing := JsValue.undefined, timestamp := JsValue.num (JsNum.finite 1700000000000) } := by
  refine ⟨rfl, ?_, ?_, ?_⟩
  · rfl
  · rfl
  · rfl

/-- A finite number has type `number`. -/
theorem typeof_number_of_finite {v : JsValue} (h : v.isFiniteNumber = true) :
    v.typeof = "number" := by
  cases v with
  | num n => rfl
  | _ => simp [JsValue.isFiniteNumber] at h

/-- The effects of `handleLocationUpdate` on a location that passes its guard, when
no library call throws. -/
theorem handleLocationUpdate_log (i : Inputs) (d b : JsValue) (l : LocationData) (w : World)
    (hlat : l.latitude.typeof = "number") (hlon : l.longitude.typeof = "number") :
    (TrackingScreen.handleLocationUpdate i.env d b (some l) w).world.log =
      w.log ++ [updateRequest d l] ++
        (if i.fetch.responded then
          match w.socket with
          | some sid => if w.isConnected then [updatePush sid d b l i.now] else []
          | none => []
        else []) := by
  have hv : TrackingScreen.invalidLocation (some l) = false := by
    simp [TrackingScreen.invalidLocation, hlat, hlon]
  simp only [TrackingScreen.handleLocationUpdate, hv, TrackingScreen.processLocation,
    ApiService.updateLocation, ApiService.post, SocketService.emitLocationUpdate,
    SocketService.emitIfReady, SocketService.socketEmit, JsonData.getSuccess, Inputs.env,
    updateRequest, updatePush]
  rcases hf : i.fetch with e | e | data
  · simp [Completion.bind, Completion.tryCatch, Completion.world, FetchOutcome.responded]
  · simp [Completion.bind, Completion.tryCatch, Completion.world, FetchOutcome.responded]
  · cases data <;> cases hs : w.socket <;> cases hc : w.isConnected <;>
      simp [Completion.bind, Completion.tryCatch, Completion.world, FetchOutcome.responded]

/-- In the connected session a fix reaches `handleLocationUpdate` as the object
the position callback builds. -/
theorem sensorFix_session (env : Env) (position : Position) :
    sensorFix env 0 position connectedSession =
      (TrackingScreen.handleLocationUpdate env (JsValue.str "D1") (JsValue.str "B1")
        (some position.locationData) connectedSession).world := rfl

/-- The request for the fix of the example. -/
theorem sampleFix_request :
    updateRequest (JsValue.str "D1") sampleFix.locationData = sampleRequest := by
  simp [updateRequest, sampleRequest, sampleFix, Position.locationData, JsValue.or,
    JsValue.truthy]
  norm_num

/-- The push message for the fix of the example. -/
theorem sampleFix_push (now : Nat) :
    updatePush 0 (JsValue.str "D1") (JsValue.str "B1") sampleFix.locationData now
      = samplePush now := by
  simp [updatePush, samplePush, sampleFix, Position.locationData, JsValue.or, JsValue.truthy]
  norm_num

/-- C4, the code at the failing inputs.  In a connected session, the fix of
the end-to-end example produces its durable request and then no push
emission when `fetch` rejects, when the body is not JSON, and when the body
is `null`; when the body is an object with `success: false` the same sample
is pushed. -/
theorem thrown_request_suppresses_push :
    connectedSession.socket = some 0 ∧ connectedSession.isConnected = true ∧
    (sensorFix
        ({ fetch := FetchOutcome.rejected (JsError.typeError "Network request failed"),
           now := 5 } : Inputs).env
        0 sampleFix connectedSession).log = connectedSession.log ++ [sampleRequest] ∧
    (sensorFix
        ({ fetch := FetchOutcome.badJson (JsError.error "JSON Parse error"), now := 5 } : Inputs).env
        0 sampleFix connectedSession).log = connectedSession.log ++ [sampleRequest] ∧
    (sensorFix ({ fetch := FetchOutcome.json JsonData.null, now := 5 } : Inputs).env
        0 sampleFix connectedSession).log = connectedSession.log ++ [sampleRequest] ∧
    (sensorFix
        ({ fetch := FetchOutcome.json (JsonData.object (JsValue.bool false) JsValue.undefined),
           now := 5 } : Inputs).env
        0 sampleFix connectedSession).log =
      connectedSession.log ++ [sampleRequest, samplePush 5] := by
  have hs : connectedSession.socket = some 0 := by decide
  have hc : connectedSession.isConnected = true := by decide
  refine ⟨hs, hc, ?_, ?_, ?_, ?_⟩ <;>
    rw [sensorFix_session,
      handleLocationUpdate_log _ _ _ sampleFix.locationData _ (by rfl) (by rfl)] <;>
    simp [FetchOutcome.responded, hs, hc, sampleFix_request, sampleFix_push]

/-- Without a current socket a listener emits nothing, and only the two connect
listeners can set `isConnected`. -/
theorem runHandler_socket_none (env : Env) (h : Handler) (w : World) (hs : w.socket = none) :
    ∃ w1, runHandler env h w = Completion.normal () w1 ∧ w1.socket = none ∧
      w1.sockets = w.sockets ∧ w1.log = w.log ∧
      (h ≠ Handler.svcConnect → h ≠ Handler.svcReconnect → w.isConnected = false →
        w1.isConnected = false) := by
  cases h <;>
    simp [runHandler, SocketService.joinRoom, SocketService.emitIfReady, hs]

/-- The same for a list of listeners. -/
theorem runHandlers_socket_none (env : Env) (hs : List Handler) (w : World)
    (hsock : w.socket = none) :
    ∃ w1, runHandlers env hs w = Completion.normal () w1 ∧ w1.socket = none ∧
      w1.sockets = w.sockets ∧ w1.log = w.log ∧
      ((∀ h ∈ hs, h ≠ Handler.svcConnect ∧ h ≠ Handler.svcReconnect) → w.isConnected = false →
        w1.isConnected = false) := by
  induction hs generalizing w with
  | nil => exact ⟨w, rfl, hsock, rfl, rfl, fun _ h => h⟩
  | cons h rest ih =>
    obtain ⟨w1, e1, s1, k1, l1, c1⟩ := runHandler_socket_none env h w hsock
    obtain ⟨w2, e2, s2, k2, l2, c2⟩ := ih w1 s1
    refine ⟨w2, ?_, s2, k2.trans k1, l2.trans l1, ?_⟩
    · simp [runHandlers, e1, Completion.bind, e2]
    · intro hall hc
      have hh := hall h (List.mem_cons_self _ _)
      exact c2 (fun x hx => hall x (List.mem_cons_of_mem _ hx)) (c1 hh.1 hh.2 hc)

/-- The same for an event fired by a socket object. -/
theorem deliver_socket_none (env : Env) (sid : Nat) (event : String) (w : World)
    (hwf : HandlersWellFormed w) (hsock : w.socket = none) :
    (deliver env sid event w).socket = none ∧ (deliver env sid event w).sockets = w.sockets ∧
      (deliver env sid event w).log = w.log ∧
      (event ≠ "connect" → event ≠ "reconnect" → w.isConnected = false →
        (deliver env sid event w).isConnected = false) := by
  unfold deliver
  cases hf : w.sockets.find? (fun s => s.id == sid) with
  | none => exact ⟨hsock, rfl, rfl, fun _ _ h => h⟩
  | some s =>
    have hmem : s ∈ w.sockets := List.mem_of_find?_eq_some hf
    obtain ⟨w1, e1, s1, k1, l1, c1⟩ :=
      runHandlers_socket_none env ((s.handlers.filter (fun p => p.1 == event)).map Prod.snd) w hsock
    simp only [e1, Completion.world]
    refine ⟨s1, k1, l1, ?_⟩
    intro h1 h2 hc
    apply c1 _ hc
    intro h hh
    obtain ⟨p, hp, rfl⟩ := List.mem_map.mp hh
    obtain ⟨hp1, hp2⟩ := List.mem_filter.mp hp
    have hev : p.1 = event := by simpa using hp2
    have := hwf s hmem p hp1
    constructor
    · intro hc1
      exact h1 (hev ▸ this.1 hc1)
    · intro hc2
      exact h2 (hev ▸ this.2 hc2)

/-- The same for a sequence of events. -/
theorem deliverAll_socket_none (env : Env) (events : List (Nat × String)) (w : World)
    (hwf : HandlersWellFormed w) (hsock : w.socket = none) :
    (deliverAll env events w).socket = none ∧ (deliverAll env events w).log = w.log ∧
      ((∀ p ∈ events, p.2 ≠ "connect" ∧ p.2 ≠ "reconnect") → w.isConnected = false →
        (deliverAll env events w).isConnected = false) := by
  induction events generalizing w with
  | nil => exact ⟨hsock, rfl, fun _ h => h⟩
  | cons p rest ih =>
    obtain ⟨s1, k1, l1, c1⟩ := deliver_socket_none env p.1 p.2 w hwf hsock
    have hwf1 : HandlersWellFormed (deliver env p.1 p.2 w) := by
      unfold HandlersWellFormed
      rw [k1]
      exact hwf
    obtain ⟨s2, l2, c2⟩ := ih (deliver env p.1 p.2 w) hwf1 s1
    refine ⟨s2, l2.trans l1, ?_⟩
    intro hall hc
    have hp := hall p (List.mem_cons_self _ _)
    exact c2 (fun x hx => hall x (List.mem_cons_of_mem _ hx)) (c1 hp.1 hp.2 hc)

/-- A listener does not change the socket objects. -/
theorem runHandler_sockets (env : Env) (h : Handler) (w : World) :
    (runHandler env h w).world.sockets = w.sockets := by
  cases h <;> try rfl
  case screenConnect d b =>
    simp only [runHandler, SocketService.joinRoom, SocketService.emitIfReady,
      SocketService.socketEmit]
    cases w.socket <;> cases w.isConnected <;> cases env.faults.emit <;> rfl

/-- Listeners do not change the socket objects. -/
theorem runHandlers_sockets (env : Env) (hs : List Handler) (w : World) :
    (runHandlers env hs w).world.sockets = w.sockets := by
  induction hs generalizing w with
  | nil => rfl
  | cons h rest ih =>
    simp only [runHandlers]
    cases hr : runHandler env h w with
    | normal v w1 =>
      have := runHandler_sockets env h w
      rw [hr] at this
      simpa [Completion.bind] using (ih w1).trans this
    | thrown e w1 =>
      have := runHandler_sockets env h w
      rw [hr] at this
      simpa [Completion.bind] using this

/-- An event does not change the socket objects. -/
theorem deliver_sockets (env : Env) (sid : Nat) (event : String) (w : World) :
    (deliver env sid event w).sockets = w.sockets := by
  unfold deliver
  cases w.sockets.find? (fun s => s.id == sid) with
  | none => rfl
  | some s => exact runHandlers_sockets env _ w

/-- An emission does not change the socket objects. -/
theorem emitIfReady_sockets (env : Env) (event : String) (payload : Payload) (w : World) :
    (SocketService.emitIfReady env event payload w).world.sockets = w.sockets := by
  simp only [SocketService.emitIfReady, SocketService.socketEmit]
  cases w.socket <;> cases w.isConnected <;> cases env.faults.emit <;> rfl

/-- Every step of the channel keeps the listeners well formed. -/
theorem HandlersWellFormed_step (w : World) (e : ChannelEvent) (hw : HandlersWellFormed w) :
    HandlersWellFormed (channelStep w e) := by
  cases e with
  | connect serverUrl =>
    simp only [channelStep, SocketService.connect, Inputs.env]
    by_cases hr : SocketService.ready w = true
    · simpa [hr, Completion.world] using hw
    · simp only [hr, Completion.world]
      intro s hs p hp
      simp only [Bool.false_eq_true, if_false, List.mem_append, List.mem_singleton] at hs
      rcases hs with hs | rfl
      · exact hw s hs p hp
      · have key : ∀ q ∈ SocketService.serviceHandlers,
            (q.2 = Handler.svcConnect → q.1 = "connect") ∧
              (q.2 = Handler.svcReconnect → q.1 = "reconnect") := by decide
        exact key p hp
  | disconnect =>
    simp only [channelStep, SocketService.disconnect, SocketService.socketDisconnect, Inputs.env]
    cases hs : w.socket with
    | none => simpa [Completion.world] using hw
    | some sid =>
      simp only [Bool.false_eq_true, if_false, Completion.bind, Completion.world]
      intro s hs p hp
      obtain ⟨s0, hs0, rfl⟩ := List.mem_map.mp hs
      by_cases hid : s0.id = sid
      · simp only [hid, if_true] at hp
        exact hw s0 hs0 p hp
      · simp only [hid, if_false] at hp
        exact hw s0 hs0 p hp
  | joinRoom d b =>
    unfold HandlersWellFormed
    simp only [channelStep, SocketService.joinRoom, emitIfReady_sockets]
    exact hw
  | leaveRoom d b =>
    unfold HandlersWellFormed
    simp only [channelStep, SocketService.leaveRoom, emitIfReady_sockets]
    exact hw
  | emitLocationUpdate p =>
    unfold HandlersWellFormed
    simp only [channelStep, SocketService.emitLocationUpdate, emitIfReady_sockets]
    exact hw
  | onConnect d b =>
    simp only [channelStep, SocketService.onEvent]
    cases hs : w.socket with
    | none => simpa [Completion.world] using hw
    | some sid =>
      simp only [Completion.world]
      intro s hs p hp
      obtain ⟨s0, hs0, rfl⟩ := List.mem_map.mp hs
      by_cases hid : s0.id = sid
      · simp only [hid, if_true, List.mem_append, List.mem_singleton] at hp
        rcases hp with hp | rfl
        · exact hw s0 hs0 p hp
        · simp
      · simp only [hid, if_false] at hp
        exact hw s0 hs0 p hp
  | onDisconnect =>
    simp only [channelStep, SocketService.onEvent]
    cases hs : w.socket with
    | none => simpa [Completion.world] using hw
    | some sid =>
      simp only [Completion.world]
      intro s hs p hp
      obtain ⟨s0, hs0, rfl⟩ := List.mem_map.mp hs
      by_cases hid : s0.id = sid
      · simp only [hid, if_true, List.mem_append, List.mem_singleton] at hp
        rcases hp with hp | rfl
        · exact hw s0 hs0 p hp
        · simp
      · simp only [hid, if_false] at hp
        exact hw s0 hs0 p hp
  | fire sid event =>
    unfold HandlersWellFormed
    simp only [channelStep, deliver_sockets]
    exact hw

/-- Every run of the channel keeps the listeners well formed. -/
theorem HandlersWellFormed_run (events : List ChannelEvent) (w : World)
    (hw : HandlersWellFormed w) : HandlersWellFormed (runChannel events w) := by
  induction events generalizing w with
  | nil => exact hw
  | cons e rest ih => exact ih _ (HandlersWellFormed_step w e hw)

/-- No listener exists at process start. -/
theorem HandlersWellFormed_init : HandlersWellFormed World.init := by
  intro s hs
  simp [World.init] at hs

/-- What `disconnect()` does when `socket.disconnect` does not throw. -/
theorem disconnect_world (i : Inputs) (w : World) :
    SocketService.disconnect i.env w =
      Completion.normal ()
        (match w.socket with
         | some sid =>
           { w with
             sockets := w.sockets.map (fun s => if s.id = sid then { s with closed := true } else s)
             log := w.log ++ [Effect.socketDisconnect sid]
             socket := none
             isConnected := false }
         | none => w) := by
  cases h : w.socket <;>
    simp [SocketService.disconnect, SocketService.socketDisconnect, Inputs.env, Completion.bind, h]

/-- C6, as amended.  Take any state reachable from process start through
the operations of `SocketService` and the events of its sockets in which the
channel is Disconnected, Connecting or Connected (`isConnected` is not set
without a socket).  After `disconnect()` the socket is null and
`getConnectionStatus().isConnected` is false; whatever events the torn-down
connections then fire, the socket stays null and nothing is emitted; and as
long as none of these events is `connect` or `reconnect` (so for
`disconnect`, `connect_error`, `reconnect_error` and `reconnect_failed`),
`isConnected` stays false. -/
theorem disconnect_terminal_until_stale_connect (pre : List ChannelEvent)
    (events : List (Nat × String))
    (hstate : (runChannel pre World.init).socket = none →
      (runChannel pre World.init).isConnected = false) :
    (SocketService.disconnect ({} : Inputs).env (runChannel pre World.init)).world.socket = none ∧
    SocketService.getConnectionStatus
      (SocketService.disconnect ({} : Inputs).env (runChannel pre World.init)).world = false ∧
    (deliverAll ({} : Inputs).env events
      (SocketService.disconnect ({} : Inputs).env (runChannel pre World.init)).world).socket = none ∧
    (deliverAll ({} : Inputs).env events
      (SocketService.disconnect ({} : Inputs).env (runChannel pre World.init)).world).log =
      (SocketService.disconnect ({} : Inputs).env (runChannel pre World.init)).world.log ∧
    ((∀ p ∈ events, p.2 ≠ "connect" ∧ p.2 ≠ "reconnect") →
      SocketService.getConnectionStatus
        (deliverAll ({} : Inputs).env events
          (SocketService.disconnect ({} : Inputs).env (runChannel pre World.init)).world) = false) := by
  have hwf := HandlersWellFormed_step _ ChannelEvent.disconnect
    (HandlersWellFormed_run pre World.init HandlersWellFormed_init)
  simp only [channelStep] at hwf
  have hs : (SocketService.disconnect ({} : Inputs).env (runChannel pre World.init)).world.socket
      = none := by
    rw [disconnect_world]
    cases h : (runChannel pre World.init).socket <;> simp [Completion.world, h]
  have hc : (SocketService.disconnect ({} : Inputs).env
      (runChannel pre World.init)).world.isConnected = false := by
    rw [disconnect_world]
    cases h : (runChannel pre World.init).socket with
    | none => simpa [Completion.world, h] using hstate h
    | some sid => simp [Completion.world, h]
  obtain ⟨a, b, c⟩ := deliverAll_socket_none ({} : Inputs).env events _ hwf hs
  exact ⟨hs, hc, a, b, fun hall => c hall hc⟩

/-- C6, witness: a connected session is disconnected, then its old socket
fires `disconnect`, `connect_error` and `reconnect_failed`. -/
theorem disconnect_terminal_until_stale_connect_witness :
    SocketService.getConnectionStatus
        (deliverAll ({} : Inputs).env [(0, "disconnect"), (0, "connect_error"), (0, "reconnect_failed")]
          (SocketService.disconnect ({} : Inputs).env
            (runChannel
              [ChannelEvent.connect SocketService.defaultUrl,
               ChannelEvent.onConnect (JsValue.str "D1") (JsValue.str "B1"),
               ChannelEvent.fire 0 "connect"] World.init)).world) = false :=
  (disconnect_terminal_until_stale_connect
    [ChannelEvent.connect SocketService.defaultUrl,
     ChannelEvent.onConnect (JsValue.str "D1") (JsValue.str "B1"),
     ChannelEvent.fire 0 "connect"]
    [(0, "disconnect"), (0, "connect_error"), (0, "reconnect_failed")]
    (by decide)).2.2.2.2 (by decide)

/-- C6, counterexample.  After `connect()` and `disconnect()` the channel is
Disconnected; a `connect` event then fired by the torn-down socket runs the
listener `connect()` registered on it, and `getConnectionStatus().isConnected`
is true with no explicit `connect()` in between. -/
theorem stale_connect_after_disconnect :
    (runChannel [ChannelEvent.connect SocketService.defaultUrl, ChannelEvent.disconnect]
        World.init).socket = none ∧
    SocketService.getConnectionStatus
      (runChannel [ChannelEvent.connect SocketService.defaultUrl, ChannelEvent.disconnect]
        World.init) = false ∧
    SocketService.getConnectionStatus
      (deliver ({} : Inputs).env 0 "connect"
        (runChannel [ChannelEvent.connect SocketService.defaultUrl, ChannelEvent.disconnect]
          World.init)) = true := by
  decide

/-- C7, the code at the failing input.  On the socket opened at mount a
`connect` event makes the screen emit `join-driver-room`.  When the app
returns to the foreground while `isConnected` is false,
`handleAppStateChange` opens a second socket, on which the screen has
registered nothing: its `connect` event makes the channel Connected and no
message is emitted. -/
theorem reopened_connection_not_joined :
    mountedSession.socket = some 0 ∧
    (deliver ({} : Inputs).env 0 "connect" mountedSession).log =
      mountedSession.log ++
        [Effect.socketEmit 0 "join-driver-room"
          (Payload.room (JsValue.str "D1") (JsValue.str "B1"))] ∧
    mountedSession.isConnected = false ∧
    foregroundSession.socket = some 1 ∧
    SocketService.ready (deliver ({} : Inputs).env 1 "connect" foregroundSession) = true ∧
    (deliver ({} : Inputs).env 1 "connect" foregroundSession).log = foregroundSession.log := by
  refine ⟨by decide, by rfl, by decide, by decide, by decide, by rfl⟩

/-- What `leaveRoom` does when `socket.emit` does not throw. -/
theorem leaveRoom_world (i : Inputs) (d b : JsValue) (w : World) :
    SocketService.leaveRoom i.env d b w =
      Completion.normal ()
        (match w.socket with
         | some sid =>
           if w.isConnected then
             { w with log := w.log ++ [Effect.socketEmit sid "leave-driver-room" (Payload.room d b)] }
           else w
         | none => w) := by
  cases h : w.socket <;> cases hc : w.isConnected <;>
    simp [SocketService.leaveRoom, SocketService.emitIfReady, SocketService.socketEmit,
      Inputs.env, h, hc]

/-- C8, as amended.  From every state in which the Sampler is started or
stopped (options are kept only with a subscription), whatever the state of
the channel, and when no library call throws, the session cleanup returns
normally, its effects are those of `stopTracking()`, then
`leaveRoom(driverId, busId)`, then `disconnect()` in that order, and it ends
with `watchId` and `currentOptions` null and the socket null.  `isConnected`
is false at the end whenever a socket existed at the start or the flag was not
set; with no socket at the start the cleanup leaves the flag as it was. -/
theorem cleanup_postcondition (i : Inputs) (d b : JsValue) (w : World)
    (hsampler : w.watchId = none → w.currentOptions = none) :
    ∃ w1, TrackingScreen.cleanup i.env d b w = Completion.normal () w1 ∧
      w1.watchId = none ∧ w1.currentOptions = none ∧ w1.socket = none ∧
      ((w.socket = none → w.isConnected = false) → w1.isConnected = false) ∧
      (w.socket = none → w1.isConnected = w.isConnected) ∧
      w1.log = w.log ++
        (match w.watchId with
         | some id => [Effect.clearWatch id]
         | none => []) ++
        (match w.socket with
         | some sid =>
           (if w.isConnected then
              [Effect.socketEmit sid "leave-driver-room" (Payload.room d b)]
            else []) ++ [Effect.socketDisconnect sid]
         | none => []) := by
  simp only [TrackingScreen.cleanup, stopTracking_world, leaveRoom_world, disconnect_world,
    Completion.bind]
  refine ⟨_, rfl, ?_⟩
  cases h1 : w.watchId <;> cases h2 : w.socket <;> cases h3 : w.isConnected <;>
    simp_all

/-- C8, witness: the cleanup of the connected session of `D1` on `B1` ends
Idle and Disconnected. -/
theorem cleanup_postcondition_witness :
    ∃ w1, TrackingScreen.cleanup ({} : Inputs).env (JsValue.str "D1") (JsValue.str "B1")
        connectedSession = Completion.normal () w1 ∧
      w1.watchId = none ∧ w1.currentOptions = none ∧ w1.socket = none ∧ w1.isConnected = false ∧
      w1.log = connectedSession.log ++
        (match connectedSession.watchId with
         | some id => [Effect.clearWatch id]
         | none => []) ++
        (match connectedSession.socket with
         | some sid =>
           (if connectedSession.isConnected then
              [Effect.socketEmit sid "leave-driver-room"
                (Payload.room (JsValue.str "D1") (JsValue.str "B1"))]
            else []) ++ [Effect.socketDisconnect sid]
         | none => []) := by
  obtain ⟨w1, h1, h2, h3, h4, h5, -, h7⟩ :=
    cleanup_postcondition {} (JsValue.str "D1") (JsValue.str "B1") connectedSession (by decide)
  exact ⟨w1, h1, h2, h3, h4, h5 (by decide), h7⟩

/-- C8, counterexample.  After two `connect()` calls made while not
connected, a `disconnect()` and a `connect` event of the first socket, which
was never closed, the Sampler is stopped and the channel has no socket but
`isConnected` is true.  The session cleanup then returns normally, finds
nothing to stop, to leave or to disconnect, and ends with `isConnected`
still true: the channel is not left Disconnected. -/
theorem cleanup_keeps_stale_flag :
    (runChannel leakedSocketConnects World.init).watchId = none ∧
    (runChannel leakedSocketConnects World.init).currentOptions = none ∧
    (runChannel leakedSocketConnects World.init).socket = none ∧
    (TrackingScreen.cleanup ({} : Inputs).env (JsValue.str "D1") (JsValue.str "B1")
      (runChannel leakedSocketConnects World.init)).threw = false ∧
    (TrackingScreen.cleanup ({} : Inputs).env (JsValue.str "D1") (JsValue.str "B1")
      (runChannel leakedSocketConnects World.init)).world.socket = none ∧
    SocketService.getConnectionStatus
      (TrackingScreen.cleanup ({} : Inputs).env (JsValue.str "D1") (JsValue.str "B1")
        (runChannel leakedSocketConnects World.init)).world = true := by
  decide

/-- C9, counterexample.  In a connected session, when `clearWatch` throws
the cleanup throws with nothing emitted and the socket still open:
`leaveRoom` and `disconnect` are not attempted.  When `socket.emit` throws in
`leaveRoom`, the cleanup throws after the subscription is cleared and the
socket is still open: `disconnect` is not attempted. -/
theorem cleanup_aborts_on_first_error :
    connectedSession.socket = some 0 ∧ connectedSession.isConnected = true ∧
    (TrackingScreen.cleanup clearWatchFails (JsValue.str "D1") (JsValue.str "B1")
        connectedSession).threw = true ∧
    (TrackingScreen.cleanup clearWatchFails (JsValue.str "D1") (JsValue.str "B1")
        connectedSession).world.log = connectedSession.log ∧
    (TrackingScreen.cleanup clearWatchFails (JsValue.str "D1") (JsValue.str "B1")
        connectedSession).world.socket = some 0 ∧
    (TrackingScreen.cleanup emitFails (JsValue.str "D1") (JsValue.str "B1")
        connectedSession).threw = true ∧
    (TrackingScreen.cleanup emitFails (JsValue.str "D1") (JsValue.str "B1")
        connectedSession).world.log = connectedSession.log ++ [Effect.clearWatch 0] ∧
    (TrackingScreen.cleanup emitFails (JsValue.str "D1") (JsValue.str "B1")
        connectedSession).world.socket = some 0 := by
  refine ⟨by decide, by decide, by decide, by rfl, by decide, by decide, by rfl, by decide⟩

/-- C9, as amended.  The session cleanup runs `stopTracking()`,
`leaveRoom` and `disconnect()` in sequence and ends at the first step that
raises.  If `stopTracking()` raises (a subscription exists and `clearWatch`
throws), the cleanup raises and nothing else is done.  If `stopTracking()`
returns and `leaveRoom` raises (the channel is Connected and `socket.emit`
throws), the cleanup raises and the socket is left as it was: `disconnect()`
is not attempted.  If neither raises, `disconnect()` is attempted, and when
`socket.disconnect` does not throw the three steps have taken effect in
order. -/
theorem cleanup_runs_until_first_error (env : Env) (d b : JsValue) (w : World) :
    (w.watchId.isSome = true ∧ env.faults.clearWatch = true →
      (TrackingScreen.cleanup env d b w).threw = true ∧
      (TrackingScreen.cleanup env d b w).world = { w with appStateSubscribed := false }) ∧
    ((w.watchId = none ∨ env.faults.clearWatch = false) ∧ SocketService.ready w = true ∧
        env.faults.emit = true →
      (TrackingScreen.cleanup env d b w).threw = true ∧
      (TrackingScreen.cleanup env d b w).world.socket = w.socket ∧
      (TrackingScreen.cleanup env d b w).world.isConnected = w.isConnected ∧
      (TrackingScreen.cleanup env d b w).world.sockets = w.sockets ∧
      (TrackingScreen.cleanup env d b w).world.log =
        w.log ++
          (match w.watchId with
           | some id => [Effect.clearWatch id]
           | none => [])) ∧
    ((w.watchId = none ∨ env.faults.clearWatch = false) ∧
        (SocketService.ready w = false ∨ env.faults.emit = false) ∧
        env.faults.socketDisconnect = false →
      (TrackingScreen.cleanup env d b w).threw = false ∧
      (TrackingScreen.cleanup env d b w).world.watchId = none ∧
      (TrackingScreen.cleanup env d b w).world.socket = none ∧
      (TrackingScreen.cleanup env d b w).world.log =
        w.log ++
          (match w.watchId with
           | some id => [Effect.clearWatch id]
           | none => []) ++
          (match w.socket with
           | some sid =>
             (if w.isConnected then
                [Effect.socketEmit sid "leave-driver-room" (Payload.room d b)]
              else []) ++ [Effect.socketDisconnect sid]
           | none => [])) := by
  simp only [TrackingScreen.cleanup, LocationService.stopTracking, LocationService.clearWatch,
    SocketService.leaveRoom, SocketService.emitIfReady, SocketService.socketEmit,
    SocketService.disconnect, SocketService.socketDisconnect, SocketService.ready]
  cases h1 : w.watchId <;> cases h2 : w.socket <;> cases h3 : w.isConnected <;>
    cases h4 : env.faults.clearWatch <;> cases h5 : env.faults.emit <;>
    cases h6 : env.faults.socketDisconnect <;>
    simp [Completion.bind, Completion.threw, Completion.world]

/-- C10, as amended.  For every identity and every sample with finite
numeric latitude and longitude, `handleLocationUpdate` issues exactly one
request, `POST /drivers/update-location` with body `driverId`, `latitude`,
`longitude`, `speed`, `bearing`; when the request returns a body that is not
`null`, it then emits exactly one `driver-location-update` message with
`bus_id`, `driver_id`, `latitude`, `longitude`, `speed`, `bearing`,
`timestamp`, `accuracy` if the channel is Connected, and nothing otherwise.
Both carry the latitude and longitude of the sample and the identity
unchanged, and the same speed and bearing: the value of the sample when that
value is truthy (present, not zero, not `NaN`), and `0` otherwise. -/
theorem end_to_end_payloads (i : Inputs) (d b : JsValue) (l : LocationData) (w : World)
    (hlat : l.latitude.isFiniteNumber = true) (hlon : l.longitude.isFiniteNumber = true) :
    ∃ rest,
      (TrackingScreen.handleLocationUpdate i.env d b (some l) w).world.log =
        w.log ++
          Effect.fetch "POST" (ApiService.BASE_URL ++ "/drivers/update-location")
            (RequestBody.updateLocation d l.latitude l.longitude
              (if l.speed.truthy then l.speed else JsValue.zero)
              (if l.bearing.truthy then l.bearing else JsValue.zero)) :: rest ∧
      (∀ m u body, Effect.fetch m u body ∉ rest) ∧
      (i.fetch.responded = true →
        rest =
          match w.socket with
          | some sid =>
            if w.isConnected then
              [Effect.socketEmit sid "driver-location-update"
                (Payload.location
                  { bus_id := b
                    driver_id := d
                    latitude := l.latitude
                    longitude := l.longitude
                    speed := if l.speed.truthy then l.speed else JsValue.zero
                    bearing := if l.bearing.truthy then l.bearing else JsValue.zero
                    timestamp := i.now
                    accuracy := l.accuracy })]
            else []
          | none => []) := by
  refine ⟨(if i.fetch.responded then
      match w.socket with
      | some sid => if w.isConnected then [updatePush sid d b l i.now] else []
      | none => []
    else []), ?_, ?_, ?_⟩
  · rw [handleLocationUpdate_log i d b l w (typeof_number_of_finite hlat)
      (typeof_number_of_finite hlon), List.append_assoc]
    rfl
  · intro m u body
    cases i.fetch.responded <;> cases w.socket <;> cases w.isConnected <;>
      simp [updatePush]
  · intro h
    rw [h]
    rfl

/-- C10, witness: identity `D1`, `B1` and the fix with latitude 12.9,
longitude 77.6, accuracy 5 and speed 2.5 give the request body
`D1, 12.9, 77.6, 2.5, 0` and one push message with the same coordinates,
`bus_id` `B1` and `driver_id` `D1`. -/
theorem end_to_end_payloads_witness :
    (sensorFix ({ now := 5 } : Inputs).env 0 sampleFix connectedSession).log =
      connectedSession.log ++
        [Effect.fetch "POST" (ApiService.BASE_URL ++ "/drivers/update-location")
           (RequestBody.updateLocation (JsValue.str "D1") (JsValue.num (JsNum.finite 12.9))
             (JsValue.num (JsNum.finite 77.6)) (JsValue.num (JsNum.finite 2.5)) JsValue.zero),
         Effect.socketEmit 0 "driver-location-update"
           (Payload.location
             { bus_id := JsValue.str "B1", driver_id := JsValue.str "D1",
               latitude := JsValue.num (JsNum.finite 12.9),
               longitude := JsValue.num (JsNum.finite 77.6),
               speed := JsValue.num (JsNum.finite 2.5), bearing := JsValue.zero, timestamp := 5,
               accuracy := JsValue.num (JsNum.finite 5) })] := by
  obtain ⟨rest, h1, -, h3⟩ :=
    end_to_end_payloads { now := 5 } (JsValue.str "D1") (JsValue.str "B1")
      sampleFix.locationData connectedSession (by rfl) (by rfl)
  have hs : connectedSession.socket = some 0 := by decide
  have hc : connectedSession.isConnected = true := by decide
  rw [sensorFix_session, h1, h3 rfl]
  simp [hs, hc, sampleFix, Position.locationData, JsValue.truthy]
  norm_num

/-- C10, counterexample.  In a connected session the valid sample of the
example gets no push emission when its durable request is rejected; and a
valid sample whose speed is `NaN` (present and not zero) is sent with speed
`0` on both channels. -/
theorem payloads_counterexample :
    connectedSession.socket = some 0 ∧ connectedSession.isConnected = true ∧
    sampleFix.coords.latitude.isFiniteNumber = true ∧
    sampleFix.coords.longitude.isFiniteNumber = true ∧
    (sensorFix
        ({ fetch := FetchOutcome.rejected (JsError.typeError "Network request failed"),
           now := 5 } : Inputs).env
        0 sampleFix connectedSession).log = connectedSession.log ++ [sampleRequest] ∧
    nanSpeedFix.coords.speed = JsValue.num JsNum.nan ∧
    (sensorFix ({ now := 5 } : Inputs).env 0 nanSpeedFix connectedSession).log =
      connectedSession.log ++
        [Effect.fetch "POST" (ApiService.BASE_URL ++ "/drivers/update-location")
           (RequestBody.updateLocation (JsValue.str "D1") (JsValue.num (JsNum.finite 12.9))
             (JsValue.num (JsNum.finite 77.6)) JsValue.zero JsValue.zero),
         Effect.socketEmit 0 "driver-location-update"
           (Payload.location
             { bus_id := JsValue.str "B1", driver_id := JsValue.str "D1",
               latitude := JsValue.num (JsNum.finite 12.9),
               longitude := JsValue.num (JsNum.finite 77.6),
               speed := JsValue.zero, bearing := JsValue.zero, timestamp := 5,
               accuracy := JsValue.undefined })] := by
  have hs : connectedSession.socket = some 0 := by decide
  have hc : connectedSession.isConnected = true := by decide
  refine ⟨hs, hc, rfl, rfl, ?_, rfl, by rfl⟩
  rw [sensorFix_session,
    handleLocationUpdate_log _ _ _ sampleFix.locationData _ (by rfl) (by rfl)]
  simp [FetchOutcome.responded, sampleFix_request]

/-! ## Statistics, the operations of the channel and stopping -/

/-- `handleLocationUpdate` always returns: its `catch` swallows what was thrown. -/
theorem handleLocationUpdate_normal (env : Env) (d b : JsValue) (loc : Option LocationData)
    (w : World) :
    TrackingScreen.handleLocationUpdate env d b loc w =
      Completion.normal () (TrackingScreen.handleLocationUpdate env d b loc w).world := by
  unfold TrackingScreen.handleLocationUpdate
  cases h : (if TrackingScreen.invalidLocation loc = true then Completion.normal () w
     else
      match loc with
      | none => Completion.normal () w
      | some l => TrackingScreen.processLocation env d b l w) <;>
    simp [Completion.tryCatch, Completion.world]

/-- A location that does not pass the guard changes nothing. -/
theorem handleLocationUpdate_invalid (env : Env) (d b : JsValue) (loc : Option LocationData)
    (w : World) (h : TrackingScreen.invalidLocation loc = true) :
    (TrackingScreen.handleLocationUpdate env d b loc w).world = w := by
  simp [TrackingScreen.handleLocationUpdate, h, Completion.tryCatch, Completion.world]

/-- What `handleLocationUpdate` does to the state of the screen, whatever the
two channels do. -/
theorem handleLocationUpdate_screen (env : Env) (d b : JsValue) (l : LocationData) (w : World)
    (h : TrackingScreen.invalidLocation (some l) = false) :
    (TrackingScreen.handleLocationUpdate env d b (some l) w).world.screen =
      { w.screen with
        currentLocation := some l
        lastUpdateTime := some env.now
        locationCount := w.screen.locationCount + 1 } := by
  simp only [TrackingScreen.handleLocationUpdate, h, TrackingScreen.processLocation,
    ApiService.updateLocation, ApiService.post, SocketService.emitLocationUpdate,
    SocketService.emitIfReady, SocketService.socketEmit, JsonData.getSuccess]
  cases env.fetch with
  | rejected e => simp [Completion.bind, Completion.tryCatch, Completion.world]
  | badJson e => simp [Completion.bind, Completion.tryCatch, Completion.world]
  | json data =>
    cases data <;> cases hs : w.socket <;> cases hc : w.isConnected <;>
      cases hf : env.faults.emit <;>
      simp [Completion.bind, Completion.tryCatch, Completion.world, hs, hc, hf]

/-- The effects of `handleLocationUpdate` on a location that passes its guard,
whatever the two channels do: the request, then at most the push message. -/
theorem handleLocationUpdate_effects (env : Env) (d b : JsValue) (l : LocationData) (w : World)
    (h : TrackingScreen.invalidLocation (some l) = false) :
    (TrackingScreen.handleLocationUpdate env d b (some l) w).world.log = w.log ++ [updateRequest d l]
    ∨ ∃ sid, (TrackingScreen.handleLocationUpdate env d b (some l) w).world.log =
        w.log ++ [updateRequest d l, updatePush sid d b l env.now] := by
  simp only [TrackingScreen.handleLocationUpdate, h, TrackingScreen.processLocation,
    ApiService.updateLocation, ApiService.post, SocketService.emitLocationUpdate,
    SocketService.emitIfReady, SocketService.socketEmit, JsonData.getSuccess, updateRequest,
    updatePush]
  cases env.fetch with
  | rejected e => simp [Completion.bind, Completion.tryCatch, Completion.world]
  | badJson e => simp [Completion.bind, Completion.tryCatch, Completion.world]
  | json data =>
    cases data <;> cases hs : w.socket <;> cases hc : w.isConnected <;>
      cases hf : env.faults.emit <;>
      simp [Completion.bind, Completion.tryCatch, Completion.world, hs, hc, hf]

/-- A listener leaves the state of the screen alone, but for `socketConnected`. -/
theorem runHandler_locationCount (env : Env) (h : Handler) (w : World) :
    (runHandler env h w).world.screen.locationCount = w.screen.locationCount := by
  cases h <;> try rfl
  case screenConnect d b =>
    simp only [runHandler, SocketService.joinRoom, SocketService.emitIfReady,
      SocketService.socketEmit]
    cases w.socket <;> cases w.isConnected <;> cases env.faults.emit <;> rfl

/-- Listeners do not count samples. -/
theorem runHandlers_locationCount (env : Env) (hs : List Handler) (w : World) :
    (runHandlers env hs w).world.screen.locationCount = w.screen.locationCount := by
  induction hs generalizing w with
  | nil => rfl
  | cons h rest ih =>
    simp only [runHandlers]
    cases hr : runHandler env h w with
    | normal v w1 =>
      have := runHandler_locationCount env h w
      rw [hr] at this
      simpa [Completion.bind] using (ih w1).trans this
    | thrown e w1 =>
      have := runHandler_locationCount env h w
      rw [hr] at this
      simpa [Completion.bind] using this

/-- A socket event does not count samples. -/
theorem deliver_locationCount (env : Env) (sid : Nat) (event : String) (w : World) :
    (deliver env sid event w).screen.locationCount = w.screen.locationCount := by
  unfold deliver
  cases w.sockets.find? (fun s => s.id == sid) with
  | none => rfl
  | some s => exact runHandlers_locationCount env _ w

/-- C11.  For every sequence of locations handed to `handleLocationUpdate`
(interleaved with any events of the socket objects, so the push channel may be
connected or not at each sample) and every environment of each call (the
durable request succeeds, is refused or throws; `socket.emit` throws or not),
the sample counter ends at its initial value plus the number of locations
that pass the guard of `handleLocationUpdate`; one call adds exactly 1 when
the location passes the guard and 0 otherwise. -/
theorem counter_counts_valid_samples (d b : JsValue) (events : List DeliveryEvent) (w : World) :
    (runDelivery d b events w).screen.locationCount =
        w.screen.locationCount + (events.filter DeliveryEvent.passesValidation).length ∧
      ∀ (env : Env) (location : Option LocationData),
        (deliveryStep d b w (DeliveryEvent.sample env location)).screen.locationCount =
          w.screen.locationCount + (if TrackingScreen.invalidLocation location then 0 else 1) := by
  have step : ∀ (w : World) (env : Env) (location : Option LocationData),
      (deliveryStep d b w (DeliveryEvent.sample env location)).screen.locationCount =
        w.screen.locationCount + (if TrackingScreen.invalidLocation location then 0 else 1) := by
    intro w env location
    by_cases h : TrackingScreen.invalidLocation location = true
    · simp [deliveryStep, handleLocationUpdate_invalid env d b location w h, h]
    · cases location with
      | none => simp [TrackingScreen.invalidLocation] at h
      | some l =>
        have h1 : TrackingScreen.invalidLocation (some l) = false := by simpa using h
        simp [deliveryStep, handleLocationUpdate_screen env d b l w h1, h1]
  refine ⟨?_, step w⟩
  induction events generalizing w with
  | nil => simp [runDelivery]
  | cons e rest ih =>
    have hrun : runDelivery d b (e :: rest) w = runDelivery d b rest (deliveryStep d b w e) := rfl
    rw [hrun, ih]
    cases e with
    | sample env location =>
      rw [step]
      by_cases h : TrackingScreen.invalidLocation location = true
      · simp [List.filter, DeliveryEvent.passesValidation, h]
      · have h1 : TrackingScreen.invalidLocation location = false := by simpa using h
        simp [List.filter, DeliveryEvent.passesValidation, h1]
        omega
    | socket sid event =>
      simp [deliveryStep, deliver_locationCount, List.filter, DeliveryEvent.passesValidation]

/-- C19.  For every sample that passes the guard and every outcome of the
durable request, the failing ones included (rejected fetch, body that is not
JSON, `null` body, body without a truthy `success`), `handleLocationUpdate`
returns normally, issues exactly one request for the sample, shows no alert,
and leaves `watchId`, `currentOptions` and the subscriptions as they are. -/
theorem delivery_failure_contained (env : Env) (d b : JsValue) (l : LocationData) (w : World)
    (hlat : l.latitude.typeof = "number") (hlon : l.longitude.typeof = "number") :
    ∃ w1 rest,
      TrackingScreen.handleLocationUpdate env d b (some l) w = Completion.normal () w1 ∧
      w1.watchId = w.watchId ∧ w1.currentOptions = w.currentOptions ∧ w1.watches = w.watches ∧
      w1.log =
        w.log ++
          Effect.fetch "POST" (ApiService.BASE_URL ++ "/drivers/update-location")
            (RequestBody.updateLocation d l.latitude l.longitude
              (if l.speed.truthy then l.speed else JsValue.zero)
              (if l.bearing.truthy then l.bearing else JsValue.zero)) :: rest ∧
      (∀ m u body, Effect.fetch m u body ∉ rest) ∧
      (∀ title message buttons, Effect.alert title message buttons ∉ rest) := by
  have hv : TrackingScreen.invalidLocation (some l) = false := by
    simp [TrackingScreen.invalidLocation, hlat, hlon]
  obtain ⟨k1, k2, k3, -, -⟩ := sampler_fields (handleLocationUpdate_sampler env d b (some l) w)
  rcases handleLocationUpdate_effects env d b l w hv with hlog | ⟨sid, hlog⟩
  · exact ⟨_, [], handleLocationUpdate_normal env d b (some l) w, k1, k2, k3, hlog,
      by simp, by simp⟩
  · refine ⟨_, [updatePush sid d b l env.now], handleLocationUpdate_normal env d b (some l) w,
      k1, k2, k3, hlog, ?_, ?_⟩ <;> simp [updatePush]

/-- C19, witness: the sample of the example in the connected session, with a
durable request that is rejected. -/
theorem delivery_failure_contained_witness :
    ∃ w1 rest,
      TrackingScreen.handleLocationUpdate
          { fetch := FetchOutcome.rejected (JsError.typeError "Network request failed") }
          (JsValue.str "D1") (JsValue.str "B1") (some sampleFix.locationData) connectedSession
        = Completion.normal () w1 ∧
      w1.watchId = connectedSession.watchId ∧
      w1.currentOptions = connectedSession.currentOptions ∧
      w1.watches = connectedSession.watches ∧
      w1.log =
        connectedSession.log ++
          Effect.fetch "POST" (ApiService.BASE_URL ++ "/drivers/update-location")
            (RequestBody.updateLocation (JsValue.str "D1") sampleFix.locationData.latitude
              sampleFix.locationData.longitude
              (if sampleFix.locationData.speed.truthy then sampleFix.locationData.speed
               else JsValue.zero)
              (if sampleFix.locationData.bearing.truthy then sampleFix.locationData.bearing
               else JsValue.zero)) :: rest ∧
      (∀ m u body, Effect.fetch m u body ∉ rest) ∧
      (∀ title message buttons, Effect.alert title message buttons ∉ rest) :=
  delivery_failure_contained
    { fetch := FetchOutcome.rejected (JsError.typeError "Network request failed") }
    (JsValue.str "D1") (JsValue.str "B1") sampleFix.locationData connectedSession rfl rfl

/-- C20, as amended.  For every sample that passes the guard and every
wall-clock time at which `handleLocationUpdate` processes it, the
last-update timestamp the screen records is that time of processing
(`new Date()`), whatever the `timestamp` field of the sample. -/
theorem last_update_is_processing_time (env : Env) (d b : JsValue) (l : LocationData)
    (w : World) (hlat : l.latitude.typeof = "number") (hlon : l.longitude.typeof = "number") :
    (TrackingScreen.handleLocationUpdate env d b (some l) w).world.screen.lastUpdateTime =
      some env.now := by
  have hv : TrackingScreen.invalidLocation (some l) = false := by
    simp [TrackingScreen.invalidLocation, hlat, hlon]
  rw [handleLocationUpdate_screen env d b l w hv]

/-- C20, witness: the sample captured at 1700000000000 and processed at
1700000004321. -/
theorem last_update_is_processing_time_witness :
    (TrackingScreen.handleLocationUpdate { now := 1700000004321 } (JsValue.str "D1")
        (JsValue.str "B1") (some sampleFix.locationData)
        connectedSession).world.screen.lastUpdateTime = some 1700000004321 :=
  last_update_is_processing_time { now := 1700000004321 } (JsValue.str "D1") (JsValue.str "B1")
    sampleFix.locationData connectedSession rfl rfl

/-- C20, counterexample.  The sample of the example was captured at
1700000000000; processed at 1700000004321 it is recorded with last-update
time 1700000004321, and processed at 1700000009999 with 1700000009999: the
recorded time is not the capture time. -/
theorem last_update_not_capture_time :
    sampleFix.locationData.timestamp = JsValue.num (JsNum.finite 1700000000000) ∧
    (TrackingScreen.handleLocationUpdate { now := 1700000004321 } (JsValue.str "D1")
        (JsValue.str "B1") (some sampleFix.locationData)
        connectedSession).world.screen.lastUpdateTime = some 1700000004321 ∧
    (TrackingScreen.handleLocationUpdate { now := 1700000009999 } (JsValue.str "D1")
        (JsValue.str "B1") (some sampleFix.locationData)
        connectedSession).world.screen.lastUpdateTime = some 1700000009999 := by
  refine ⟨rfl, ?_, ?_⟩ <;>
    rw [handleLocationUpdate_screen _ _ _ _ _ (by rfl)]

/-- What `emitIfReady` does when `socket.emit` does not throw. -/
theorem emitIfReady_world (i : Inputs) (event : String) (payload : Payload) (w : World) :
    SocketService.emitIfReady i.env event payload w =
      Completion.normal ()
        (match w.socket with
         | some sid =>
           if w.isConnected then
             { w with log := w.log ++ [Effect.socketEmit sid event payload] }
           else w
         | none => w) := by
  cases h : w.socket <;> cases hc : w.isConnected <;>
    simp [SocketService.emitIfReady, SocketService.socketEmit, Inputs.env, h, hc]

/-- C12.  In every state of the channel, when a socket exists and
`isConnected` is true each of `joinRoom`, `leaveRoom` and
`emitLocationUpdate` emits exactly one message on that socket
(`join-driver-room` and `leave-driver-room` with `driverId`, `busId`;
`driver-location-update` with the given payload) and changes nothing else;
otherwise it returns normally and leaves the whole state as it was, so
that whatever the channel does later is what it would have done had the
operation not been called: nothing is kept to be emitted after the
connection resumes. -/
theorem push_operations_only_while_connected (i : Inputs) (d b : JsValue) (p : PushLocation)
    (w : World) :
    (∀ sid, w.socket = some sid → w.isConnected = true →
      SocketService.joinRoom i.env d b w =
        Completion.normal ()
          { w with
            log := w.log ++ [Effect.socketEmit sid "join-driver-room" (Payload.room d b)] } ∧
      SocketService.leaveRoom i.env d b w =
        Completion.normal ()
          { w with
            log := w.log ++ [Effect.socketEmit sid "leave-driver-room" (Payload.room d b)] } ∧
      SocketService.emitLocationUpdate i.env p w =
        Completion.normal ()
          { w with
            log := w.log ++
              [Effect.socketEmit sid "driver-location-update" (Payload.location p)] }) ∧
    (SocketService.ready w = false →
      SocketService.joinRoom i.env d b w = Completion.normal () w ∧
      SocketService.leaveRoom i.env d b w = Completion.normal () w ∧
      SocketService.emitLocationUpdate i.env p w = Completion.normal () w) ∧
    (SocketService.ready w = false →
      ∀ later : List ChannelEvent,
        runChannel later (channelStep w (ChannelEvent.joinRoom d b)) = runChannel later w ∧
        runChannel later (channelStep w (ChannelEvent.leaveRoom d b)) = runChannel later w ∧
        runChannel later (channelStep w (ChannelEvent.emitLocationUpdate p)) =
          runChannel later w) := by
  have quiet : ∀ (event : String) (payload : Payload), SocketService.ready w = false →
      SocketService.emitIfReady ({} : Inputs).env event payload w = Completion.normal () w ∧
      SocketService.emitIfReady i.env event payload w = Completion.normal () w := by
    intro event payload hr
    rw [emitIfReady_world, emitIfReady_world]
    cases hs : w.socket <;> cases hc : w.isConnected <;>
      simp_all [SocketService.ready]
  refine ⟨?_, ?_, ?_⟩
  · intro sid hs hc
    simp [SocketService.joinRoom, SocketService.leaveRoom, SocketService.emitLocationUpdate,
      emitIfReady_world, hs, hc]
  · intro hr
    exact ⟨(quiet _ _ hr).2, (quiet _ _ hr).2, (quiet _ _ hr).2⟩
  · intro hr later
    simp only [channelStep, SocketService.joinRoom, SocketService.leaveRoom,
      SocketService.emitLocationUpdate, (quiet _ _ hr).1, Completion.world, and_self]

/-- C13.  When a socket exists and `isConnected` is true,
`connect(serverUrl)` returns with the state unchanged.  In every other state
(and when `io` does not throw) it creates exactly one socket object, for
`serverUrl`, with a 5000 ms timeout, reconnection enabled, a 1000 ms
reconnection delay and 10 reconnection attempts, makes it the current socket
and registers its six listeners on it. -/
theorem connect_opens_one_connection (i : Inputs) (serverUrl : String) (w : World) :
    (SocketService.ready w = true →
      SocketService.connect i.env serverUrl w = Completion.normal () w) ∧
    (SocketService.ready w = false →
      SocketService.connect i.env serverUrl w =
        Completion.normal ()
          { w with
            socket := some w.sockets.length
            sockets := w.sockets ++
              [{ id := w.sockets.length
                 url := serverUrl
                 options :=
                   { transports := ["websocket", "polling"]
                     timeout := 5000
                     reconnection := true
                     reconnectionDelay := 1000
                     reconnectionAttempts := 10 }
                 handlers := SocketService.serviceHandlers
                 closed := false }]
            log := w.log ++
              [Effect.createSocket w.sockets.length serverUrl
                { transports := ["websocket", "polling"]
                  timeout := 5000
                  reconnection := true
                  reconnectionDelay := 1000
                  reconnectionAttempts := 10 }] }) := by
  constructor
  · intro h
    simp [SocketService.connect, h]
  · intro h
    simp [SocketService.connect, h, Inputs.env, SocketService.socketOptions]

/-- C15, as amended.  In every state `disconnect()` returns normally and a
second `disconnect()` right after it changes nothing and has no effect, so
the socket object is disconnected at most once; afterwards the socket is
null, and `isConnected` is false whenever a socket existed or the flag was
not set before; with no socket it does nothing at all. -/
theorem disconnect_idempotent (i : Inputs) (w : World) :
    ∃ w1, SocketService.disconnect i.env w = Completion.normal () w1 ∧
      SocketService.disconnect i.env w1 = Completion.normal () w1 ∧
      w1.socket = none ∧
      w1.log = w.log ++
        (match w.socket with
         | some sid => [Effect.socketDisconnect sid]
         | none => []) ∧
      (w.socket = none → w1 = w) ∧
      ((w.socket = none → w.isConnected = false) → w1.isConnected = false) := by
  refine ⟨_, disconnect_world i w, ?_⟩
  cases h : w.socket with
  | none => simp [disconnect_world, h]
  | some sid => simp [disconnect_world]

/-- C16.  In every state of the Sampler reachable from process start,
`stopTracking()` returns normally, clears the subscription named by
`watchId` if there is one and nothing otherwise (with `watchId` null the
state stays as it is), ends with `watchId` and `currentOptions` null, and a
second `stopTracking()` right after it changes nothing and clears nothing. -/
theorem stopTracking_idempotent (events : List SamplerEvent) (i : Inputs) :
    ∃ w1, LocationService.stopTracking i.env (runSampler events World.init) =
        Completion.normal () w1 ∧
      LocationService.stopTracking i.env w1 = Completion.normal () w1 ∧
      w1.log = (runSampler events World.init).log ++
        (match (runSampler events World.init).watchId with
         | some id => [Effect.clearWatch id]
         | none => []) ∧
      ((runSampler events World.init).watchId = none → w1 = runSampler events World.init) ∧
      w1.watchId = none ∧ w1.currentOptions = none := by
  obtain ⟨-, h2⟩ := SamplerInv_run events World.init SamplerInv_init
  refine ⟨_, stopTracking_world i _, ?_⟩
  cases h : (runSampler events World.init).watchId with
  | none => simp [stopTracking_world, h, h2 h]
  | some id => simp [stopTracking_world]

/-- When no library call throws a listener returns, sets `isConnected` as its
flag says and leaves the socket objects alone. -/
theorem runHandler_flag (i : Inputs) (h : Handler) (w : World) :
    ∃ w1, runHandler i.env h w = Completion.normal () w1 ∧
      w1.isConnected = h.flag w.isConnected ∧ w1.sockets = w.sockets ∧ w1.socket = w.socket := by
  cases h with
  | screenConnect d b =>
    simp only [runHandler, SocketService.joinRoom, emitIfReady_world]
    refine ⟨_, rfl, ?_⟩
    cases w.socket <;> cases w.isConnected <;> simp [Handler.flag]
  | _ => exact ⟨_, rfl, rfl, rfl, rfl⟩

/-- The same for a list of listeners. -/
theorem runHandlers_flag (i : Inputs) (hs : List Handler) (w : World) :
    ∃ w1, runHandlers i.env hs w = Completion.normal () w1 ∧
      w1.isConnected = hs.foldl (fun b h => h.flag b) w.isConnected ∧
      w1.sockets = w.sockets ∧ w1.socket = w.socket := by
  induction hs generalizing w with
  | nil => exact ⟨w, rfl, rfl, rfl, rfl⟩
  | cons h rest ih =>
    obtain ⟨w1, e1, c1, s1, k1⟩ := runHandler_flag i h w
    obtain ⟨w2, e2, c2, s2, k2⟩ := ih w1
    refine ⟨w2, ?_, ?_, s2.trans s1, k2.trans k1⟩
    · simp [runHandlers, e1, Completion.bind, e2]
    · simp [c2, c1]

/-- The listeners of `connect()` set the flag as the event says. -/
theorem serviceHandlers_flag (event : String) (b : Bool) :
    ((SocketService.serviceHandlers.filter (fun p => p.1 == event)).map Prod.snd).foldl
        (fun b h => h.flag b) b =
      if stateBearing event then (event == "connect" || event == "reconnect") else b := by
  by_cases h1 : event = "connect"
  · subst h1; rfl
  by_cases h2 : event = "reconnect"
  · subst h2; rfl
  by_cases h3 : event = "disconnect"
  · subst h3; rfl
  by_cases h4 : event = "connect_error"
  · subst h4; rfl
  by_cases h5 : event = "reconnect_failed"
  · subst h5; rfl
  by_cases h6 : event = "reconnect_error"
  · subst h6; rfl
  have e1 : ("connect" == event) = false := by simpa using Ne.symm h1
  have e2 : ("reconnect" == event) = false := by simpa using Ne.symm h2
  have e3 : ("disconnect" == event) = false := by simpa using Ne.symm h3
  have e4 : ("connect_error" == event) = false := by simpa using Ne.symm h4
  have e5 : ("reconnect_failed" == event) = false := by simpa using Ne.symm h5
  have e6 : ("reconnect_error" == event) = false := by simpa using Ne.symm h6
  simp [SocketService.serviceHandlers, List.filter, e1, e2, e3, e4, e5, e6, stateBearing, h1, h2,
    h3, h4, h5]

/-- The listeners of the screen leave the flag alone. -/
theorem screenHandlers_flag (extra : List (String × Handler)) (event : String) (b : Bool)
    (hextra : ∀ p ∈ extra, (∃ d b, p.2 = Handler.screenConnect d b) ∨
      p.2 = Handler.screenDisconnect) :
    ((extra.filter (fun p => p.1 == event)).map Prod.snd).foldl (fun b h => h.flag b) b = b := by
  induction extra generalizing b with
  | nil => rfl
  | cons p rest ih =>
    have hrest : ∀ b, ((rest.filter (fun p => p.1 == event)).map Prod.snd).foldl
        (fun b h => h.flag b) b = b :=
      fun b => ih b (fun q hq => hextra q (List.mem_cons_of_mem _ hq))
    have hp := hextra p (List.mem_cons_self _ _)
    by_cases hev : (p.1 == event) = true
    · have hflag : p.2.flag b = b := by
        rcases hp with ⟨d, b0, hp⟩ | hp <;> rw [hp] <;> rfl
      simp only [List.filter, hev, List.map, List.foldl, hflag]
      exact hrest b
    · have hev1 : (p.1 == event) = false := by simpa using hev
      simp only [List.filter, hev1]
      exact hrest b

/-- An event fired by a wired socket object sets the flag as the event says. -/
theorem deliver_wired (i : Inputs) (sid : Nat) (event : String) (w : World)
    (hw : Wired w sid) :
    (deliver i.env sid event w).isConnected =
        (if stateBearing event then (event == "connect" || event == "reconnect")
         else w.isConnected) ∧
      Wired (deliver i.env sid event w) sid := by
  obtain ⟨s, extra, hfind, hhandlers, hextra⟩ := hw
  have hsockets := deliver_sockets i.env sid event w
  refine ⟨?_, ⟨s, extra, by rw [hsockets]; exact hfind, hhandlers, hextra⟩⟩
  unfold deliver
  rw [hfind]
  obtain ⟨w1, e1, c1, -, -⟩ :=
    runHandlers_flag i ((s.handlers.filter (fun p => p.1 == event)).map Prod.snd) w
  simp only [e1, Completion.world]
  rw [c1, hhandlers]
  simp only [List.filter_append, List.map_append, List.foldl_append, serviceHandlers_flag,
    screenHandlers_flag extra event _ hextra]

/-- Updating socket objects in place keeps their numbering. -/
theorem SocketIds_of_map {w w1 : World} (f : SocketObj → SocketObj)
    (hf : ∀ s, (f s).id = s.id) (h : w1.sockets = w.sockets.map f) (hw : SocketIds w) :
    SocketIds w1 := by
  unfold SocketIds at *
  rw [h, List.map_map, List.length_map]
  have : SocketObj.id ∘ f = SocketObj.id := funext hf
  rw [this]
  exact hw

/-- Every step of the channel keeps the numbering of the socket objects. -/
theorem SocketIds_step (w : World) (e : ChannelEvent) (hw : SocketIds w) :
    SocketIds (channelStep w e) := by
  cases e with
  | connect serverUrl =>
    simp only [channelStep, SocketService.connect, Inputs.env]
    by_cases hr : SocketService.ready w = true
    · simpa [hr, Completion.world] using hw
    · unfold SocketIds at *
      simp [hr, Completion.world, List.range_succ, hw]
  | disconnect =>
    simp only [channelStep, disconnect_world, Completion.world]
    cases hs : w.socket with
    | none => exact hw
    | some sid =>
      refine SocketIds_of_map (fun s => if s.id = sid then { s with closed := true } else s)
        ?_ rfl hw
      intro s
      by_cases h : s.id = sid <;> simp [h]
  | joinRoom d b =>
    unfold SocketIds
    simp only [channelStep, SocketService.joinRoom, emitIfReady_sockets]
    exact hw
  | leaveRoom d b =>
    unfold SocketIds
    simp only [channelStep, SocketService.leaveRoom, emitIfReady_sockets]
    exact hw
  | emitLocationUpdate p =>
    unfold SocketIds
    simp only [channelStep, SocketService.emitLocationUpdate, emitIfReady_sockets]
    exact hw
  | onConnect d b =>
    simp only [channelStep, SocketService.onEvent]
    cases hs : w.socket with
    | none => exact hw
    | some sid =>
      refine SocketIds_of_map
        (fun s => if s.id = sid then
          { s with handlers := s.handlers ++ [("connect", Handler.screenConnect d b)] } else s)
        ?_ rfl hw
      intro s
      by_cases h : s.id = sid <;> simp [h]
  | onDisconnect =>
    simp only [channelStep, SocketService.onEvent]
    cases hs : w.socket with
    | none => exact hw
    | some sid =>
      refine SocketIds_of_map
        (fun s => if s.id = sid then
          { s with handlers := s.handlers ++ [("disconnect", Handler.screenDisconnect)] } else s)
        ?_ rfl hw
      intro s
      by_cases h : s.id = sid <;> simp [h]
  | fire sid event =>
    unfold SocketIds
    simp only [channelStep, deliver_sockets]
    exact hw

/-- Every run of the channel keeps the numbering of the socket objects. -/
theorem SocketIds_run (events : List ChannelEvent) (w : World) (hw : SocketIds w) :
    SocketIds (runChannel events w) := by
  induction events generalizing w with
  | nil => exact hw
  | cons e rest ih => exact ih _ (SocketIds_step w e hw)

/-- No socket object exists at process start. -/
theorem SocketIds_init : SocketIds World.init := by
  simp [SocketIds, World.init]

/-- What `connect()` does when the channel is not Connected and `io` does not
throw. -/
theorem connect_world (i : Inputs) (serverUrl : String) (w : World)
    (hr : SocketService.ready w = false) :
    SocketService.connect i.env serverUrl w =
      Completion.normal ()
        { w with
          socket := some w.sockets.length
          sockets := w.sockets ++
            [{ id := w.sockets.length, url := serverUrl, options := SocketService.socketOptions,
               handlers := SocketService.serviceHandlers, closed := false }]
          log := w.log ++
            [Effect.createSocket w.sockets.length serverUrl SocketService.socketOptions] } := by
  simp [SocketService.connect, hr, Inputs.env]

/-- The connection `connect()` opens is the current socket and carries the six
listeners. -/
theorem connect_wired (i : Inputs) (serverUrl : String) (w : World) (hw : SocketIds w)
    (hr : SocketService.ready w = false) :
    Wired (SocketService.connect i.env serverUrl w).world w.sockets.length ∧
      (SocketService.connect i.env serverUrl w).world.socket = some w.sockets.length ∧
      (SocketService.connect i.env serverUrl w).world.isConnected = w.isConnected := by
  rw [connect_world i serverUrl w hr]
  have hnone : w.sockets.find? (fun x => x.id == w.sockets.length) = none := by
    rw [List.find?_eq_none]
    intro s hs
    have hmem : s.id ∈ w.sockets.map SocketObj.id := List.mem_map_of_mem _ hs
    rw [hw, List.mem_range] at hmem
    simp
    omega
  refine ⟨⟨{ id := w.sockets.length, url := serverUrl, options := SocketService.socketOptions,
             handlers := SocketService.serviceHandlers, closed := false }, [], ?_, by simp,
           by simp⟩, rfl, rfl⟩
  simp [Completion.world, List.find?_append, hnone]

/-- A registration of the screen on the current socket keeps it wired. -/
theorem onEvent_wired (event : String) (h : Handler) (w : World) (sid : Nat)
    (hh : (∃ d b, h = Handler.screenConnect d b) ∨ h = Handler.screenDisconnect)
    (hs : w.socket = some sid) (hw : Wired w sid) :
    Wired (SocketService.onEvent event h w).world sid ∧
      (SocketService.onEvent event h w).world.socket = some sid ∧
      (SocketService.onEvent event h w).world.isConnected = w.isConnected := by
  obtain ⟨s, extra, hfind, hhandlers, hextra⟩ := hw
  have hid : s.id = sid := by simpa using List.find?_some hfind
  have hworld : (SocketService.onEvent event h w).world =
      { w with
        sockets := w.sockets.map
          (fun s => if s.id = sid then { s with handlers := s.handlers ++ [(event, h)] } else s) } := by
    simp [SocketService.onEvent, hs, Completion.world]
  rw [hworld]
  refine ⟨⟨{ s with handlers := s.handlers ++ [(event, h)] }, extra ++ [(event, h)], ?_, ?_, ?_⟩,
    hs, rfl⟩
  · show List.find? (fun x : SocketObj => x.id == sid) (w.sockets.map _) = _
    rw [List.find?_map]
    have hfun : ((fun x : SocketObj => x.id == sid) ∘ fun s =>
        if s.id = sid then { s with handlers := s.handlers ++ [(event, h)] } else s) =
        fun x => x.id == sid := by
      funext x
      by_cases hx : x.id = sid <;> simp [hx]
    rw [hfun, hfind]
    simp [hid]
  · simp [hhandlers]
  · intro p hp
    rcases List.mem_append.mp hp with hp | hp
    · exact hextra p hp
    · have : p = (event, h) := by simpa using hp
      rw [this]
      exact hh

/-- The registrations of the screen keep the current socket wired. -/
theorem registrations_wired (regs : List ChannelEvent) (w : World) (sid : Nat)
    (hregs : ∀ e ∈ regs, e.isRegistration = true) (hs : w.socket = some sid)
    (hw : Wired w sid) :
    Wired (runChannel regs w) sid ∧ (runChannel regs w).isConnected = w.isConnected := by
  induction regs generalizing w with
  | nil => exact ⟨hw, rfl⟩
  | cons e rest ih =>
    have he := hregs e (List.mem_cons_self _ _)
    have hrest : ∀ x ∈ rest, x.isRegistration = true :=
      fun x hx => hregs x (List.mem_cons_of_mem _ hx)
    cases e with
    | onConnect d b =>
      obtain ⟨a1, a2, a3⟩ := onEvent_wired "connect" (Handler.screenConnect d b) w sid
        (Or.inl ⟨d, b, rfl⟩) hs hw
      obtain ⟨b1, b2⟩ := ih _ hrest a2 a1
      exact ⟨b1, b2.trans a3⟩
    | onDisconnect =>
      obtain ⟨a1, a2, a3⟩ := onEvent_wired "disconnect" Handler.screenDisconnect w sid
        (Or.inr rfl) hs hw
      obtain ⟨b1, b2⟩ := ih _ hrest a2 a1
      exact ⟨b1, b2.trans a3⟩
    | _ => simp [ChannelEvent.isRegistration] at he

/-- The flag after a sequence of events fired by a wired socket object. -/
theorem deliverAll_wired (i : Inputs) (sid : Nat) (events : List String) (w : World)
    (hw : Wired w sid) :
    (deliverAll i.env (events.map (fun e => (sid, e))) w).isConnected =
      events.foldl
        (fun b e => if stateBearing e then (e == "connect" || e == "reconnect") else b)
        w.isConnected := by
  induction events generalizing w with
  | nil => rfl
  | cons e rest ih =>
    obtain ⟨h1, h2⟩ := deliver_wired i sid e w hw
    have := ih (deliver i.env sid e w) h2
    simp only [deliverAll, List.map, List.foldl] at this ⊢
    rw [this, h1]

/-- Folding the events is reading the most recent state-bearing one. -/
theorem foldl_eq_expectedStatus (events : List String) :
    events.foldl
        (fun b e => if stateBearing e then (e == "connect" || e == "reconnect") else b) false =
      expectedStatus events := by
  induction events using List.reverseRecOn with
  | nil => rfl
  | append_singleton l e ih =>
    rw [List.foldl_append]
    simp only [List.foldl]
    by_cases hsb : stateBearing e = true
    · simp [expectedStatus, List.filter_append, hsb, List.filter]
    · have hsb1 : stateBearing e = false := by simpa using hsb
      simp only [hsb1, Bool.false_eq_true, if_false, ih]
      simp [expectedStatus, List.filter_append, hsb1, List.filter]

/-- Folding the events from any value of the flag. -/
theorem foldl_eq_statusFrom (before : Bool) (events : List String) :
    events.foldl
        (fun b e => if stateBearing e then (e == "connect" || e == "reconnect") else b) before =
      statusFrom before events := by
  induction events using List.reverseRecOn with
  | nil => rfl
  | append_singleton l e ih =>
    rw [List.foldl_append]
    simp only [List.foldl]
    by_cases hsb : stateBearing e = true
    · simp [statusFrom, List.filter_append, hsb, List.filter]
    · have hsb1 : stateBearing e = false := by simpa using hsb
      simp only [hsb1, Bool.false_eq_true, if_false, ih]
      simp [statusFrom, List.filter_append, hsb1, List.filter]

/-- C14, as amended.  Let `connect()` open a connection (the channel is not
Connected when it is called), let the screen register any of its listeners
on it, and let that connection fire any sequence of events.  Then
`getConnectionStatus().isConnected` is true exactly when the most recent
event among `connect`, `reconnect`, `disconnect`, `connect_error` and
`reconnect_failed` was `connect` or `reconnect`; when there was none it is
the value `isConnected` had when `connect()` was called, which `connect()`
does not reset, so it is false when the flag was not set then.  A further
`reconnect_error` leaves it unchanged. -/
theorem status_reflects_last_event (pre regs : List ChannelEvent) (serverUrl : String)
    (events : List String)
    (hopen : SocketService.ready (runChannel pre World.init) = false)
    (hregs : ∀ e ∈ regs, e.isRegistration = true) :
    SocketService.getConnectionStatus
        (deliverAll ({} : Inputs).env
          (events.map (fun e => ((runChannel pre World.init).sockets.length, e)))
          (runChannel regs
            (channelStep (runChannel pre World.init) (ChannelEvent.connect serverUrl)))) =
      statusFrom (runChannel pre World.init).isConnected events ∧
    ((runChannel pre World.init).isConnected = false →
      SocketService.getConnectionStatus
          (deliverAll ({} : Inputs).env
            (events.map (fun e => ((runChannel pre World.init).sockets.length, e)))
            (runChannel regs
              (channelStep (runChannel pre World.init) (ChannelEvent.connect serverUrl)))) =
        expectedStatus events) ∧
    SocketService.getConnectionStatus
        (deliverAll ({} : Inputs).env
          ((events ++ ["reconnect_error"]).map
            (fun e => ((runChannel pre World.init).sockets.length, e)))
          (runChannel regs
            (channelStep (runChannel pre World.init) (ChannelEvent.connect serverUrl)))) =
      SocketService.getConnectionStatus
        (deliverAll ({} : Inputs).env
          (events.map (fun e => ((runChannel pre World.init).sockets.length, e)))
          (runChannel regs
            (channelStep (runChannel pre World.init) (ChannelEvent.connect serverUrl)))) := by
  have hids := SocketIds_run pre World.init SocketIds_init
  obtain ⟨a1, a2, a3⟩ := connect_wired {} serverUrl (runChannel pre World.init) hids hopen
  obtain ⟨b1, b2⟩ := registrations_wired regs _ _ hregs a2 a1
  have hflag : (runChannel regs
      (channelStep (runChannel pre World.init) (ChannelEvent.connect serverUrl))).isConnected
      = (runChannel pre World.init).isConnected := by
    simp only [channelStep]
    rw [b2, a3]
  simp only [channelStep, SocketService.getConnectionStatus] at hflag ⊢
  rw [deliverAll_wired {} _ _ _ b1, deliverAll_wired {} _ _ _ b1, hflag]
  refine ⟨foldl_eq_statusFrom _ events, ?_, ?_⟩
  · intro hfalse
    rw [hfalse]
    exact foldl_eq_expectedStatus events
  · rw [List.foldl_append]
    rfl

/-- C14, witness: the first connection of the process, with both listeners of
the screen, fires `connect`, `disconnect`, `reconnect_error`, `reconnect`,
`reconnect_error`. -/
theorem status_reflects_last_event_witness :
    SocketService.getConnectionStatus
        (deliverAll ({} : Inputs).env
          (["connect", "disconnect", "reconnect_error", "reconnect", "reconnect_error"].map
            (fun e => ((runChannel [] World.init).sockets.length, e)))
          (runChannel
            [ChannelEvent.onConnect (JsValue.str "D1") (JsValue.str "B1"),
             ChannelEvent.onDisconnect]
            (channelStep (runChannel [] World.init)
              (ChannelEvent.connect SocketService.defaultUrl)))) =
      expectedStatus ["connect", "disconnect", "reconnect_error", "reconnect", "reconnect_error"] :=
  (status_reflects_last_event []
    [ChannelEvent.onConnect (JsValue.str "D1") (JsValue.str "B1"), ChannelEvent.onDisconnect]
    SocketService.defaultUrl
    ["connect", "disconnect", "reconnect_error", "reconnect", "reconnect_error"]
    (by decide) (by decide)).2.1 (by decide)

/-- C14, counterexample.  After two `connect()` calls made while not
connected, a `disconnect()` and a `connect` event of the first socket, which
was never closed, the channel has no socket and `isConnected` is true.
`connect()` then opens a connection, socket 2, and before that connection
has fired any event `getConnectionStatus().isConnected` is true, where the
claim has it false. -/
theorem status_true_before_any_event :
    SocketService.ready (runChannel leakedSocketConnects World.init) = false ∧
    (channelStep (runChannel leakedSocketConnects World.init)
      (ChannelEvent.connect SocketService.defaultUrl)).socket = some 2 ∧
    (channelStep (runChannel leakedSocketConnects World.init)
      (ChannelEvent.connect SocketService.defaultUrl)).log =
      (runChannel leakedSocketConnects World.init).log ++
        [Effect.createSocket 2 SocketService.defaultUrl SocketService.socketOptions] ∧
    SocketService.getConnectionStatus
      (deliverAll ({} : Inputs).env (([] : List String).map (fun e => (2, e)))
        (channelStep (runChannel leakedSocketConnects World.init)
          (ChannelEvent.connect SocketService.defaultUrl))) = true ∧
    expectedStatus [] = false := by
  decide

/-- C17.  In every state of the Sampler reachable from process start,
`startTracking` returns `false` exactly when `requestLocationPermission()`
reports the permission as not granted (on Android: the request did not result
in `granted`, or threw; on iOS it always reports granted).  In that case
`onError` is called once if supplied, and the subscriptions, `watchId` and
`currentOptions` are unchanged.  Otherwise it returns `true` and exactly one
subscription exists afterwards, the new one named by `watchId`, with
`distanceFilter` 5 and the given interval, 10000 when none is given. -/
theorem startTracking_returns_whether_sampling_began (events : List SamplerEvent) (i : Inputs)
    (options : TrackingOptions) :
    ((LocationService.startTracking i.env options (runSampler events World.init)).value?
        = some false ↔ LocationService.requestLocationPermission i.env = false) ∧
    (i.platform = Platform.android →
      (LocationService.requestLocationPermission i.env = true ↔
        i.permission = PermissionResult.granted)) ∧
    (i.platform = Platform.ios → LocationService.requestLocationPermission i.env = true) ∧
    (LocationService.requestLocationPermission i.env = false →
      ∃ w1, LocationService.startTracking i.env options (runSampler events World.init) =
          Completion.normal false w1 ∧
        w1 = (callOnError i.env options.onError (JsError.error "Location permission not granted")
          (runSampler events World.init)).world ∧
        (options.onError = none → w1 = runSampler events World.init) ∧
        (∀ fn, options.onError = some (Callback.other fn) →
          w1.log = (runSampler events World.init).log ++
            [Effect.called fn
              (CallbackArg.failure (JsError.error "Location permission not granted"))]) ∧
        w1.watches = (runSampler events World.init).watches ∧
        w1.watchId = (runSampler events World.init).watchId ∧
        w1.currentOptions = (runSampler events World.init).currentOptions) ∧
    (LocationService.requestLocationPermission i.env = true →
      ∃ w1, LocationService.startTracking i.env options (runSampler events World.init) =
          Completion.normal true w1 ∧
        w1.watchId = some (runSampler events World.init).nextWatchId ∧
        w1.watches =
          [{ id := (runSampler events World.init).nextWatchId
             onLocationUpdate := options.onLocationUpdate
             onError := options.onError
             config := LocationService.watchConfig (options.interval.getD 10000) }] ∧
        (LocationService.watchConfig (options.interval.getD 10000)).distanceFilter = 5 ∧
        (LocationService.watchConfig (options.interval.getD 10000)).interval =
          options.interval.getD 10000 ∧
        (options.interval = none →
          (LocationService.watchConfig (options.interval.getD 10000)).interval = 10000)) := by
  obtain ⟨h1, -⟩ := SamplerInv_run events World.init SamplerInv_init
  refine ⟨?_, ?_, ?_, ?_, ?_⟩
  · by_cases hp : LocationService.requestLocationPermission i.env = true
    · simp [startTracking_granted i options _ hp, Completion.value?, hp]
    · have hp1 : LocationService.requestLocationPermission i.env = false := by simpa using hp
      simp [startTracking_denied i.env options _ hp1, Completion.value?, hp1]
  · intro ha
    cases hperm : i.permission <;>
      simp [LocationService.requestLocationPermission, Inputs.env, ha, hperm]
  · intro ha
    simp [LocationService.requestLocationPermission, Inputs.env, ha]
  · intro hp
    refine ⟨_, startTracking_denied i.env options _ hp, rfl, ?_, ?_, ?_⟩
    · intro hn
      simp [hn, callOnError, Completion.world]
    · intro fn hf
      simp [hf, callOnError, Completion.world]
    · obtain ⟨k1, k2, k3, -, -⟩ := sampler_fields (callOnError_sampler i.env options.onError
        (JsError.error "Location permission not granted") (runSampler events World.init))
      exact ⟨k3, k1, k2⟩
  · intro hp
    refine ⟨_, startTracking_granted i options _ hp, rfl, ?_, rfl, rfl, ?_⟩
    · cases hid : (runSampler events World.init).watchId with
      | none =>
        have : (runSampler events World.init).watches = [] := by simpa [hid] using h1
        simp [this]
      | some id =>
        rw [hid] at h1
        simp [filter_ne_of_ids h1]
    · intro hn
      simp [hn, LocationService.watchConfig]

/-- What `confirmStopTracking()` does when `clearWatch` does not throw. -/
theorem confirmStopTracking_world (i : Inputs) (d : JsValue) (w : World) :
    TrackingScreen.confirmStopTracking i.env d w =
      Completion.normal ()
        (let w1 : World :=
          { (LocationService.stopTracking i.env
              { w with screen := { w.screen with isTracking := false } }).world with
            log := (LocationService.stopTracking i.env
              { w with screen := { w.screen with isTracking := false } }).world.log ++
              [Effect.fetch "POST" (ApiService.BASE_URL ++ "/drivers/stop-tracking")
                (RequestBody.stopTracking d)] }
         if i.fetch.acknowledged then
           { w1 with
             log := w1.log ++
               [Effect.alert "Session Ended" "GPS tracking has been stopped successfully."
                 ["OK"]] }
         else TrackingScreen.warnAndLeave w1) := by
  simp only [TrackingScreen.confirmStopTracking, stopTracking_world]
  simp only [ApiService.stopTracking, ApiService.post, JsonData.getSuccess, Inputs.env,
    Completion.bind, Completion.world]
  rcases hf : i.fetch with e | e | data
  · simp [Completion.tryCatch, FetchOutcome.acknowledged]
  · simp [Completion.tryCatch, FetchOutcome.acknowledged]
  · cases data with
    | null => simp [Completion.tryCatch, FetchOutcome.acknowledged]
    | object success message =>
      cases hs : success.truthy <;> simp [Completion.tryCatch, FetchOutcome.acknowledged, hs]
    | primitive v =>
      simp [Completion.tryCatch, FetchOutcome.acknowledged, JsValue.truthy]

/-- C18.  For every outcome of the stop-session request and every state of
the Sampler (options kept only with a subscription), `confirmStopTracking()`
returns normally with `isTracking` false and the Sampler Idle; the
subscription is cleared before the request `POST /drivers/stop-tracking` is
issued.  When the request returns an object whose `success` is truthy the
`Session Ended` alert is shown, and pressing its `OK` button pops to the top
of the navigation stack; in every other case (the request threw, or `success`
is missing or not truthy) the `Warning` alert `Session ended locally, but
server update failed.` is shown and the screen pops to the top at once. -/
theorem confirmStopTracking_outcome (i : Inputs) (d : JsValue) (w : World)
    (hsampler : w.watchId = none → w.currentOptions = none) :
    ∃ w1, TrackingScreen.confirmStopTracking i.env d w = Completion.normal () w1 ∧
      w1.watchId = none ∧ w1.currentOptions = none ∧ w1.screen.isTracking = false ∧
      w1.log =
        w.log ++
          (match w.watchId with
           | some id => [Effect.clearWatch id]
           | none => []) ++
          [Effect.fetch "POST" (ApiService.BASE_URL ++ "/drivers/stop-tracking")
            (RequestBody.stopTracking d)] ++
          (if i.fetch.acknowledged then
            [Effect.alert "Session Ended" "GPS tracking has been stopped successfully." ["OK"]]
           else
            [Effect.alert "Warning" "Session ended locally, but server update failed." [],
             Effect.popToTop]) ∧
      (i.fetch.acknowledged = true →
        (TrackingScreen.pressSessionEndedOk w1).log = w1.log ++ [Effect.popToTop]) := by
  refine ⟨_, confirmStopTracking_world i d w, ?_⟩
  simp only [stopTracking_world, Completion.world]
  cases h1 : w.watchId <;> cases h2 : i.fetch.acknowledged <;>
    simp_all [TrackingScreen.warnAndLeave, TrackingScreen.pressSessionEndedOk]

/-- C15, witness: disconnecting the connected session of the example. -/
theorem disconnect_idempotent_witness :
    ∃ w1, SocketService.disconnect ({} : Inputs).env connectedSession = Completion.normal () w1 ∧
      SocketService.disconnect ({} : Inputs).env w1 = Completion.normal () w1 ∧
      w1.socket = none ∧ w1.isConnected = false := by
  obtain ⟨w1, h1, h2, h3, -, -, h6⟩ := disconnect_idempotent {} connectedSession
  exact ⟨w1, h1, h2, h3, h6 (by decide)⟩

/-- C18, witness: stopping the connected session of the example, the request
being acknowledged. -/
theorem confirmStopTracking_outcome_witness :
    ∃ w1, TrackingScreen.confirmStopTracking ({} : Inputs).env (JsValue.str "D1")
        connectedSession = Completion.normal () w1 ∧
      w1.watchId = none ∧ w1.currentOptions = none ∧ w1.screen.isTracking = false ∧
      w1.log =
        connectedSession.log ++
          (match connectedSession.watchId with
           | some id => [Effect.clearWatch id]
           | none => []) ++
          [Effect.fetch "POST" (ApiService.BASE_URL ++ "/drivers/stop-tracking")
            (RequestBody.stopTracking (JsValue.str "D1"))] ++
          (if ({} : Inputs).fetch.acknowledged then
            [Effect.alert "Session Ended" "GPS tracking has been stopped successfully." ["OK"]]
           else
            [Effect.alert "Warning" "Session ended locally, but server update failed." [],
             Effect.popToTop]) ∧
      (({} : Inputs).fetch.acknowledged = true →
        (TrackingScreen.pressSessionEndedOk w1).log = w1.log ++ [Effect.popToTop]) :=
  confirmStopTracking_outcome {} (JsValue.str "D1") connectedSession (by decide)

/-- C15, counterexample.  After two `connect()` calls made while not
connected, `disconnect()` closes the second socket only; the first socket was
never disconnected, and when it fires `connect` the channel has no socket and
`isConnected` true.  A `disconnect()` in that state finds no socket and does
nothing: afterwards `isConnected` is still true, not false. -/
theorem disconnect_keeps_stale_flag :
    ((runChannel leakedSocketConnects World.init).sockets.map SocketObj.closed) = [false, true] ∧
    (runChannel leakedSocketConnects World.init).socket = none ∧
    (runChannel leakedSocketConnects World.init).isConnected = true ∧
    (SocketService.disconnect ({} : Inputs).env
      (runChannel leakedSocketConnects World.init)).world.socket = none ∧
    SocketService.getConnectionStatus
      (SocketService.disconnect ({} : Inputs).env
        (runChannel leakedSocketConnects World.init)).world = true := by
  decide

/-! ## The join on connect, the foreground, leaked sockets and the elapsed time -/

/-- `startLocationTracking()` leaves the push channel alone. -/
theorem startLocationTracking_channel (i : Inputs) (d b : JsValue) (w : World) :
    (TrackingScreen.startLocationTracking i.env d b w).world.socket = w.socket ∧
      (TrackingScreen.startLocationTracking i.env d b w).world.isConnected = w.isConnected ∧
      (TrackingScreen.startLocationTracking i.env d b w).world.sockets = w.sockets := by
  unfold TrackingScreen.startLocationTracking
  by_cases hp : LocationService.requestLocationPermission i.env = true
  · rw [startTracking_granted i _ w hp]
    exact ⟨rfl, rfl, rfl⟩
  · rw [startTracking_denied i.env _ w (by simpa using hp)]
    exact ⟨rfl, rfl, rfl⟩

/-- The socket object `connect()` creates can be found under its number. -/
theorem connect_find (i : Inputs) (serverUrl : String) (w : World) (hw : SocketIds w)
    (hr : SocketService.ready w = false) :
    (SocketService.connect i.env serverUrl w).world.sockets.find?
        (fun x => x.id == w.sockets.length) =
      some { id := w.sockets.length, url := serverUrl, options := SocketService.socketOptions,
             handlers := SocketService.serviceHandlers, closed := false } := by
  rw [connect_world i serverUrl w hr]
  have hnone : w.sockets.find? (fun x => x.id == w.sockets.length) = none := by
    rw [List.find?_eq_none]
    intro s hs
    have hmem : s.id ∈ w.sockets.map SocketObj.id := List.mem_map_of_mem _ hs
    rw [hw, List.mem_range] at hmem
    simp
    omega
  simp [Completion.world, List.find?_append, hnone]

/-- A registration on the current socket appends the listener to its list. -/
theorem onEvent_find (event : String) (h : Handler) (w : World) (sid : Nat) (s : SocketObj)
    (hs : w.socket = some sid)
    (hfind : w.sockets.find? (fun x => x.id == sid) = some s) :
    (SocketService.onEvent event h w).world.sockets.find? (fun x => x.id == sid) =
        some { s with handlers := s.handlers ++ [(event, h)] } ∧
      (SocketService.onEvent event h w).world.socket = some sid ∧
      (SocketService.onEvent event h w).world.isConnected = w.isConnected ∧
      (SocketService.onEvent event h w).world.log = w.log := by
  have hid : s.id = sid := by simpa using List.find?_some hfind
  have hworld : (SocketService.onEvent event h w).world =
      { w with
        sockets := w.sockets.map
          (fun s => if s.id = sid then { s with handlers := s.handlers ++ [(event, h)] } else s) } := by
    simp [SocketService.onEvent, hs, Completion.world]
  rw [hworld]
  refine ⟨?_, hs, rfl, rfl⟩
  show List.find? (fun x : SocketObj => x.id == sid) (w.sockets.map _) = _
  rw [List.find?_map]
  have hfun : ((fun x : SocketObj => x.id == sid) ∘ fun s =>
      if s.id = sid then { s with handlers := s.handlers ++ [(event, h)] } else s) =
      fun x => x.id == sid := by
    funext x
    by_cases hx : x.id = sid <;> simp [hx]
  rw [hfun, hfind]
  simp [hid]

/-- `connect()` always returns: its `catch` swallows what `io` throws. -/
theorem connect_normal (env : Env) (serverUrl : String) (w : World) :
    SocketService.connect env serverUrl w =
      Completion.normal () (SocketService.connect env serverUrl w).world := by
  unfold SocketService.connect
  split
  · rfl
  · split <;> rfl

/-- `SocketService.on` always returns. -/
theorem onEvent_normal (event : String) (h : Handler) (w : World) :
    SocketService.onEvent event h w =
      Completion.normal () (SocketService.onEvent event h w).world := by
  unfold SocketService.onEvent
  cases w.socket <;> rfl

/-- The mount effect, step by step. -/
theorem mount_world (env : Env) (d b : JsValue) (w : World) :
    (TrackingScreen.mount env d b w).world =
      (TrackingScreen.startLocationTracking env d b
        { (SocketService.onEvent "disconnect" Handler.screenDisconnect
            (SocketService.onEvent "connect" (Handler.screenConnect d b)
              (SocketService.connect env SocketService.defaultUrl
                { w with screen := { startTime := env.now }, effectIsTracking := true }).world
              ).world).world with
          checkTimers :=
            (SocketService.onEvent "disconnect" Handler.screenDisconnect
              (SocketService.onEvent "connect" (Handler.screenConnect d b)
                (SocketService.connect env SocketService.defaultUrl
                  { w with screen := { startTime := env.now }, effectIsTracking := true }).world
                ).world).world.checkTimers + 1
          appStateSubscribed := true }).world := by
  unfold TrackingScreen.mount
  simp only []
  rw [connect_normal]
  simp only [Completion.bind]
  rw [onEvent_normal]
  simp only [Completion.bind]
  rw [onEvent_normal]
  simp only [Completion.bind]
  rfl

/-- After the mount effect the connection it opened is the current socket and
carries the six listeners of `connect()` followed by the two of the screen. -/
theorem mount_channel (i : Inputs) (d b : JsValue) (w : World) (hw : SocketIds w)
    (hr : SocketService.ready w = false) :
    (TrackingScreen.mount i.env d b w).world.socket = some w.sockets.length ∧
      (TrackingScreen.mount i.env d b w).world.isConnected = w.isConnected ∧
      (TrackingScreen.mount i.env d b w).world.sockets.find?
          (fun x => x.id == w.sockets.length) =
        some { id := w.sockets.length, url := SocketService.defaultUrl,
               options := SocketService.socketOptions,
               handlers := SocketService.serviceHandlers ++
                 [("connect", Handler.screenConnect d b),
                  ("disconnect", Handler.screenDisconnect)],
               closed := false } := by
  have hw0 : SocketIds { w with screen := { startTime := i.env.now }, effectIsTracking := true } :=
    hw
  have hr0 : SocketService.ready
      { w with screen := { startTime := i.env.now }, effectIsTracking := true } = false := hr
  obtain ⟨-, a2, a3⟩ := connect_wired i SocketService.defaultUrl _ hw0 hr0
  have a1 := connect_find i SocketService.defaultUrl _ hw0 hr0
  obtain ⟨b1, b2, b3, -⟩ := onEvent_find "connect" (Handler.screenConnect d b) _ _ _ a2 a1
  obtain ⟨c1, c2, c3, -⟩ := onEvent_find "disconnect" Handler.screenDisconnect _ _ _ b2 b1
  rw [mount_world]
  obtain ⟨e1, e2, e3⟩ := startLocationTracking_channel i d b
    { (SocketService.onEvent "disconnect" Handler.screenDisconnect
        (SocketService.onEvent "connect" (Handler.screenConnect d b)
          (SocketService.connect i.env SocketService.defaultUrl
            { w with screen := { startTime := i.env.now }, effectIsTracking := true }).world
          ).world).world with
      checkTimers :=
        (SocketService.onEvent "disconnect" Handler.screenDisconnect
          (SocketService.onEvent "connect" (Handler.screenConnect d b)
            (SocketService.connect i.env SocketService.defaultUrl
              { w with screen := { startTime := i.env.now }, effectIsTracking := true }).world
            ).world).world.checkTimers + 1
      appStateSubscribed := true }
  refine ⟨e1.trans c2, ?_, ?_⟩
  · exact e2.trans (c3.trans (b3.trans a3))
  · show List.find? _ (TrackingScreen.startLocationTracking i.env d b _).world.sockets = _
    rw [e3]
    simpa using c1

/-- On a socket that carries the listeners of `connect()` and then those of
the screen, `connect` first sets `isConnected` and then joins the room. -/
theorem deliver_connect_joins (i : Inputs) (w : World) (sid : Nat) (d b : JsValue)
    (s : SocketObj) (hsock : w.socket = some sid)
    (hfind : w.sockets.find? (fun x => x.id == sid) = some s)
    (hh : s.handlers = SocketService.serviceHandlers ++
      [("connect", Handler.screenConnect d b), ("disconnect", Handler.screenDisconnect)]) :
    (deliver i.env sid "connect" w).isConnected = true ∧
      (deliver i.env sid "connect" w).log =
        w.log ++ [Effect.socketEmit sid "join-driver-room" (Payload.room d b)] := by
  unfold deliver
  rw [hfind]
  simp only [hh]
  simp [SocketService.serviceHandlers, List.filter, runHandlers, runHandler, Completion.bind,
    SocketService.joinRoom, emitIfReady_world, hsock, Completion.world]

/-- C21.  Let the screen be mounted while the channel is not Connected, so
that the mount effect opens a connection.  That connection is the current
socket, and its listeners for `connect` are, in order, the one `connect()`
registered and the one the screen registered afterwards.  When it fires
`connect`, `isConnected` is therefore already true when the screen calls
`joinRoom`, and exactly one message is emitted: `join-driver-room` with the
`driverId` and `busId` of the session. -/
theorem join_on_connect_of_mounted_session (pre : List ChannelEvent) (i : Inputs) (d b : JsValue)
    (hready : SocketService.ready (runChannel pre World.init) = false) :
    (TrackingScreen.mount i.env d b (runChannel pre World.init)).world.socket =
        some (runChannel pre World.init).sockets.length ∧
    (((TrackingScreen.mount i.env d b (runChannel pre World.init)).world.sockets.find?
        (fun x => x.id == (runChannel pre World.init).sockets.length)).map
          (fun s => (s.handlers.filter (fun p => p.1 == "connect")).map Prod.snd)) =
        some [Handler.svcConnect, Handler.screenConnect d b] ∧
    (deliver i.env (runChannel pre World.init).sockets.length "connect"
        (TrackingScreen.mount i.env d b (runChannel pre World.init)).world).isConnected = true ∧
    (deliver i.env (runChannel pre World.init).sockets.length "connect"
        (TrackingScreen.mount i.env d b (runChannel pre World.init)).world).log =
      (TrackingScreen.mount i.env d b (runChannel pre World.init)).world.log ++
        [Effect.socketEmit (runChannel pre World.init).sockets.length "join-driver-room"
          (Payload.room d b)] := by
  have hids := SocketIds_run pre World.init SocketIds_init
  obtain ⟨m1, -, m3⟩ := mount_channel i d b _ hids hready
  obtain ⟨k1, k2⟩ := deliver_connect_joins i _ _ d b _ m1 m3 rfl
  refine ⟨m1, ?_, k1, k2⟩
  rw [m3]
  simp [SocketService.serviceHandlers, List.filter]

/-- C21, witness: the session of `D1` on `B1` mounted at process start. -/
theorem join_on_connect_of_mounted_session_witness :
    (TrackingScreen.mount ({} : Inputs).env (JsValue.str "D1") (JsValue.str "B1")
        (runChannel [] World.init)).world.socket =
        some (runChannel [] World.init).sockets.length ∧
    (((TrackingScreen.mount ({} : Inputs).env (JsValue.str "D1") (JsValue.str "B1")
        (runChannel [] World.init)).world.sockets.find?
        (fun x => x.id == (runChannel [] World.init).sockets.length)).map
          (fun s => (s.handlers.filter (fun p => p.1 == "connect")).map Prod.snd)) =
        some [Handler.svcConnect, Handler.screenConnect (JsValue.str "D1") (JsValue.str "B1")] ∧
    (deliver ({} : Inputs).env (runChannel [] World.init).sockets.length "connect"
        (TrackingScreen.mount ({} : Inputs).env (JsValue.str "D1") (JsValue.str "B1")
          (runChannel [] World.init)).world).isConnected = true ∧
    (deliver ({} : Inputs).env (runChannel [] World.init).sockets.length "connect"
        (TrackingScreen.mount ({} : Inputs).env (JsValue.str "D1") (JsValue.str "B1")
          (runChannel [] World.init)).world).log =
      (TrackingScreen.mount ({} : Inputs).env (JsValue.str "D1") (JsValue.str "B1")
        (runChannel [] World.init)).world.log ++
        [Effect.socketEmit (runChannel [] World.init).sockets.length "join-driver-room"
          (Payload.room (JsValue.str "D1") (JsValue.str "B1"))] :=
  join_on_connect_of_mounted_session [] {} (JsValue.str "D1") (JsValue.str "B1") (by decide)

/-- C22, the code at the failing input.  After `confirmStopTracking()` on the
mounted session (request acknowledged, `OK` not yet pressed) `isTracking` is
false, the Sampler is Idle and the app-state listener is still registered,
but the `isTracking` the listener reads is the value its closure captured at
mount, true.  An app-state change to `active` then calls
`LocationService.startTracking` and, the channel not being connected,
`SocketService.connect()`: socket 1 is created, and the body of
`startTracking` creates subscription 1 with the options of the session. -/
theorem stopped_session_restarted_on_foreground :
    stoppedSession.screen.isTracking = false ∧
    stoppedSession.watchId = none ∧ stoppedSession.currentOptions = none ∧
    stoppedSession.appStateSubscribed = true ∧
    stoppedSession.effectIsTracking = true ∧
    (TrackingScreen.handleAppStateChange ({} : Inputs).env (JsValue.str "D1") (JsValue.str "B1")
        "active" stoppedSession).world.watchId = some 1 ∧
    (TrackingScreen.handleAppStateChange ({} : Inputs).env (JsValue.str "D1") (JsValue.str "B1")
        "active" stoppedSession).world.currentOptions = some sessionOptions ∧
    (TrackingScreen.handleAppStateChange ({} : Inputs).env (JsValue.str "D1") (JsValue.str "B1")
        "active" stoppedSession).world.log =
      stoppedSession.log ++
        [Effect.createSocket 1 SocketService.defaultUrl SocketService.socketOptions,
         Effect.watchPosition 1 (LocationService.watchConfig 10000)] := by
  refine ⟨by decide, by decide, by decide, by decide, by decide, by decide, by decide, by rfl⟩

/-- C23, the code at the failing input.  After a `connect()` issued while the
socket of the previous `connect()` has not connected, socket 1 is current
and socket 0 is neither current nor disconnected; when socket 0 then fires
`connect` its listener sets `isConnected`.  The tracking screen reaches the
same state when the app returns to the foreground before the first socket
has connected. -/
theorem connect_while_connecting_leaks_socket :
    (runChannel connectWhileConnecting World.init).socket = some 1 ∧
    (runChannel connectWhileConnecting World.init).sockets.map
        (fun s => (s.id, s.closed)) = [(0, false), (1, false)] ∧
    (runChannel connectWhileConnecting World.init).log =
      [Effect.createSocket 0 SocketService.defaultUrl SocketService.socketOptions,
       Effect.createSocket 1 SocketService.defaultUrl SocketService.socketOptions] ∧
    SocketService.getConnectionStatus (runChannel connectWhileConnecting World.init) = false ∧
    SocketService.getConnectionStatus
      (deliver ({} : Inputs).env 0 "connect" (runChannel connectWhileConnecting World.init))
        = true ∧
    foregroundSession.socket = some 1 ∧
    foregroundSession.sockets.map (fun s => (s.id, s.closed)) = [(0, false), (1, false)] := by
  decide

/-- The length of a padded string. -/
theorem padStart_length (s : String) (n : Nat) (c : Char) :
    (padStart s n c).length = max n s.length := by
  simp only [padStart, String.length_append]
  show (List.replicate (n - s.length) c).length + s.length = _
  rw [List.length_replicate]
  omega

/-- A string that is long enough is not padded. -/
theorem padStart_of_le (s : String) (n : Nat) (c : Char) (h : n ≤ s.length) :
    padStart s n c = s := by
  simp [padStart, Nat.sub_eq_zero_of_le h]

/-- C24.  For every start time and current time with current time not before
start time, with `e` the whole number of seconds
`floor((current - start) / 1000)`, `getElapsedTime()` is the decimal strings
of `e div 3600`, `(e mod 3600) div 60` and `e mod 60`, each padded with `0`
to two characters, joined by `:`; the minutes and the seconds are below 60
and `3600 * hours + 60 * minutes + seconds = e`.  A padded field has at
least two characters: a number below 10 gets one leading `0`, a string of
two or more characters is left as it is. -/
theorem getElapsedTime_decomposes (env : Env) (w : World) (h : w.screen.startTime ≤ env.now) :
    (((env.now - w.screen.startTime) / 1000 : Nat) : Int) =
        ((env.now : Int) - (w.screen.startTime : Int)) / 1000 ∧
    TrackingScreen.getElapsedTime env w =
      padStart (toString ((env.now - w.screen.startTime) / 1000 / 3600)) 2 '0' ++ ":" ++
        padStart (toString ((env.now - w.screen.startTime) / 1000 % 3600 / 60)) 2 '0' ++ ":" ++
        padStart (toString ((env.now - w.screen.startTime) / 1000 % 60)) 2 '0' ∧
    (env.now - w.screen.startTime) / 1000 % 3600 / 60 < 60 ∧
    (env.now - w.screen.startTime) / 1000 % 60 < 60 ∧
    3600 * ((env.now - w.screen.startTime) / 1000 / 3600) +
        60 * ((env.now - w.screen.startTime) / 1000 % 3600 / 60) +
        (env.now - w.screen.startTime) / 1000 % 60 = (env.now - w.screen.startTime) / 1000 ∧
    (∀ n : Nat, 2 ≤ (padStart (toString n) 2 '0').length) ∧
    (∀ n : Nat, n < 10 → padStart (toString n) 2 '0' = "0" ++ toString n) ∧
    (∀ s : String, 2 ≤ s.length → padStart s 2 '0' = s) := by
  refine ⟨?_, rfl, ?_, ?_, ?_, ?_, ?_, fun s hs => padStart_of_le s 2 '0' hs⟩
  · rw [← Int.ofNat_sub h]
    norm_cast
  · omega
  · omega
  · omega
  · intro n
    rw [padStart_length]
    omega
  · intro n hn
    interval_cases n <;> rfl

/-- C24, witness: 3725 seconds and 999 milliseconds after the start the
display is `01:02:05`; 100 hours after the start it is `100:00:00`. -/
theorem getElapsedTime_decomposes_witness :
    TrackingScreen.getElapsedTime { now := 1700003725999 }
        { screen := { startTime := 1700000000000 } } = "01:02:05" ∧
    TrackingScreen.getElapsedTime { now := 1700360000000 }
        { screen := { startTime := 1700000000000 } } = "100:00:00" := by
  constructor
  · exact (getElapsedTime_decomposes { now := 1700003725999 }
      { screen := { startTime := 1700000000000 } } (by decide)).2.1.trans (by decide)
  · exact (getElapsedTime_decomposes { now := 1700360000000 }
      { screen := { startTime := 1700000000000 } } (by decide)).2.1.trans (by decide)

end DriverApp
